import Mathlib

set_option linter.unusedVariables false

/-!
Verification development for the `comfy_config` repository: a shallow
embedding of its three Python scripts (`comfy_config.py`,
`_utils/setup_symlinks.py`, `_utils/manager_utils.py`) over an explicit
filesystem state, together with proofs settling the specification claims.

Modelling conventions:
* A filesystem is an association list from absolute paths (lists of name
  components) to nodes (regular file, directory, or symbolic link).  Each
  path key is independent; the model does not re-derive directory
  membership from ancestors.
* Python `pathlib` predicates that follow symbolic links (`exists`,
  `is_dir`, `is_file`) are modelled by fuel-bounded link resolution; a
  resolution loop behaves like Python (the `OSError` is swallowed and the
  predicate is false).
* Mutating operations record an event trace.  Operations that can raise
  an `OSError`-style exception relevant to the scripts' control flow
  (mkdir onto a non-directory, symlink onto an occupied path, unlink of a
  directory, a `check=True` subprocess failure, `input()` at end of
  stdin) return `Except`; environmental failures such as permissions are
  outside the model.
* `input()` is modelled by consuming a line from an explicit stdin list;
  `subprocess.run` outcomes are supplied as boolean/return-code
  parameters of the embedding.
* `time.time()` values are abstracted to naturals; only differences are
  formatted, so no floating point semantics are needed.
-/

namespace ComfyConfig

/-- A path component (one name between slashes). -/
abbrev Seg := String

/-- An absolute path, as its list of components. -/
abbrev Path := List Seg

/-- A filesystem node: regular file, directory, or symbolic link. -/
inductive Node where
  | file : Node
  | dir : Node
  | symlink (tgt : Path) : Node
deriving DecidableEq, Repr

/-- A filesystem: an association list from paths to nodes (first match wins). -/
abbrev FS := List (Path × Node)

/-- Look a path up in the filesystem. -/
def lookup : FS → Path → Option Node
  | [], _ => none
  | e :: rest, p => if e.1 = p then some e.2 else lookup rest p

/-- Boolean path-prefix test (`a` is `b` itself or an ancestor of `b`). -/
def pfx : Path → Path → Bool
  | [], _ => true
  | _ :: _, [] => false
  | a :: as, b :: bs => a = b && pfx as bs

/-- Remove the entry at exactly `p` (POSIX `unlink` effect). -/
def eraseP : FS → Path → FS
  | [], _ => []
  | e :: rest, p => if e.1 = p then eraseP rest p else e :: eraseP rest p

/-- Remove every entry at or below `p` (`shutil.rmtree` effect). -/
def eraseTree : FS → Path → FS
  | [], _ => []
  | e :: rest, p => if pfx p e.1 then eraseTree rest p else e :: eraseTree rest p

/-- Set the node at `p`, replacing any previous entry. -/
def insertP (fs : FS) (p : Path) (n : Node) : FS :=
  (p, n) :: eraseP fs p

/-- Fuel-bounded symlink resolution of the final path component. -/
def resolveN (fs : FS) : Nat → Path → Option Node
  | 0, _ => none
  | fuel + 1, p =>
    match lookup fs p with
    | some (Node.symlink t) => resolveN fs fuel t
    | x => x

/-- Resolve a path, following symlink chains (enough fuel for any acyclic chain). -/
def resolveNode (fs : FS) (p : Path) : Option Node :=
  resolveN fs (fs.length + 1) p

/-- Python `Path.exists()`: true for files/dirs and non-broken symlinks. -/
def pexists (fs : FS) (p : Path) : Bool :=
  (resolveNode fs p).isSome

/-- Python `Path.is_dir()`: follows symlinks. -/
def pyIsDir (fs : FS) (p : Path) : Bool :=
  resolveNode fs p = some Node.dir

/-- Python `Path.is_file()`: follows symlinks. -/
def pyIsFile (fs : FS) (p : Path) : Bool :=
  resolveNode fs p = some Node.file

/-- Python `Path.is_symlink()`: does not follow the link itself. -/
def pyIsSymlink (fs : FS) (p : Path) : Bool :=
  match lookup fs p with
  | some (Node.symlink _) => true
  | _ => false

/-- Exceptions the embedding tracks. -/
inductive Err where
  /-- `mkdir` hit an existing non-directory on the ancestor chain -/
  | mkdirConflict (p : Path)
  /-- `symlink_to` found the target occupied (`FileExistsError`) -/
  | targetOccupied (p : Path)
  /-- `unlink` applied to a directory -/
  | notAFile (p : Path)
  /-- `input()` at end of stdin (`EOFError`) -/
  | endOfInput
  /-- a `raise ValueError(...)` -/
  | badValue (msg : String)
  /-- a `check=True` subprocess failed outside any `try` -/
  | processError (cmd : List String)
deriving DecidableEq, Repr

/-- Events recorded by the embedded operations (mutations and the log
    lines the claims talk about). -/
inductive Event where
  /-- a plain file or symlink was unlinked -/
  | removedFile (p : Path)
  /-- a real directory was recursively deleted -/
  | removedTree (p : Path)
  /-- a directory was created -/
  | madeDir (p : Path)
  /-- a symlink was created at `target` pointing to `source` -/
  | symlinked (target source : Path)
  /-- a file was copied to `dst` -/
  | copiedFile (dst : Path)
  /-- a warning about a missing source/file was printed -/
  | warnedMissing (p : Path)
  /-- a subprocess failure was detected via its return code and logged -/
  | loggedFailure (cmd : List String)
  /-- a raised process error was caught and logged -/
  | caughtProcessError (cmd : List String)
  /-- a subprocess was launched (`ok` = its exit status, recorded even
      when the script ignores it; `checked` = whether `check=True`) -/
  | ran (cmd : List String) (ok : Bool) (checked : Bool)
  /-- a message about the given exception was printed to the error stream -/
  | printedErr (e : Err)
  /-- an informational log line was emitted -/
  | info (msg : String)
deriving DecidableEq, Repr

/-- The ascending chain of ancestors of `p`, ending with `p` itself. -/
def ancestorsAsc (p : Path) : List Path :=
  (List.range p.length).map (fun i => p.take (i + 1))

/-- One `mkdir(exist_ok=True)` step at a single path. -/
def mkdirOne (fs : FS) (p : Path) : Except Err (FS × List Event) :=
  match lookup fs p with
  | none => Except.ok (insertP fs p Node.dir, [Event.madeDir p])
  | some Node.dir => Except.ok (fs, [])
  | some (Node.symlink _) =>
    if pyIsDir fs p then Except.ok (fs, []) else Except.error (Err.mkdirConflict p)
  | some Node.file => Except.error (Err.mkdirConflict p)

/-- Make each directory of a list in turn, accumulating events. -/
def mkdirList (fs : FS) (ev : List Event) : List Path → Except Err (FS × List Event)
  | [] => Except.ok (fs, ev)
  | a :: rest =>
    match mkdirOne fs a with
    | Except.error e => Except.error e
    | Except.ok (fs2, ev2) => mkdirList fs2 (ev ++ ev2) rest

/-- `Path.mkdir(parents=True, exist_ok=True)`. -/
def mkdirParents (fs : FS) (p : Path) : Except Err (FS × List Event) :=
  mkdirList fs [] (ancestorsAsc p)

/-- The `if target.exists() or target.is_symlink(): rmtree-or-unlink`
    pattern shared by the symlink-setup routines
    (`setup_symlinks.py` lines 66-71, 83-88, 110-115). -/
def clearTarget (fs : FS) (t : Path) : FS × List Event :=
  if pexists fs t || pyIsSymlink fs t then
    if pyIsDir fs t && !pyIsSymlink fs t then
      (eraseTree fs t, [Event.removedTree t])
    else
      (eraseP fs t, [Event.removedFile t])
  else (fs, [])

/-- `Path.symlink_to`: fails with `FileExistsError` when the target path
    is occupied (missing-parent and permission errors are outside the
    model). -/
def symlink_to (fs : FS) (t s : Path) : Except Err (FS × List Event) :=
  if (lookup fs t).isSome then Except.error (Err.targetOccupied t)
  else Except.ok (insertP fs t (Node.symlink s), [Event.symlinked t s])

/-- `Path.unlink`: fails on a directory. -/
def unlinkFile (fs : FS) (p : Path) : Except Err (FS × List Event) :=
  match lookup fs p with
  | some Node.dir => Except.error (Err.notAFile p)
  | _ => Except.ok (eraseP fs p, [Event.removedFile p])

/-- `shutil.copy2(src, dst)`: when `dst` names an existing directory the
    copy lands inside it under `name`, otherwise at `dst` itself. -/
def copy2 (fs : FS) (dst : Path) (name : Seg) : FS × List Event :=
  if lookup fs dst = some Node.dir then
    (insertP fs (dst ++ [name]) Node.file, [Event.copiedFile (dst ++ [name])])
  else
    (insertP fs dst Node.file, [Event.copiedFile dst])

/-! ### Python string operations

Executable models of the `str` methods the scripts use, written over
`List Char` with structural recursion so that the kernel can evaluate
them on concrete inputs. -/

/-- `str.strip()` (whitespace from both ends). -/
def pyStrip (s : String) : String :=
  String.mk (((s.data.dropWhile Char.isWhitespace).reverse.dropWhile Char.isWhitespace).reverse)

/-- `str.lower()`. -/
def pyLower (s : String) : String :=
  String.mk (s.data.map Char.toLower)

/-- `str.startswith(pre)`. -/
def pyStartsWith (s pre : String) : Bool :=
  pre.data.isPrefixOf s.data

/-- `str.endswith(suf)`. -/
def pyEndsWith (s suf : String) : Bool :=
  suf.data.reverse.isPrefixOf s.data.reverse

/-- Drop the first `n` characters of a string. -/
def strDrop (s : String) (n : Nat) : String :=
  String.mk (s.data.drop n)

/-- Split a character list at every occurrence of `c`. -/
def splitChar (c : Char) : List Char → List Char → List (List Char)
  | [], acc => [acc.reverse]
  | d :: rest, acc =>
    if d = c then acc.reverse :: splitChar c rest []
    else splitChar c rest (d :: acc)

/-- `str.split(sep)` for a non-empty separator (fuel-structured). -/
def splitSubAux (sep : List Char) : Nat → List Char → List Char → List (List Char)
  | 0, l, acc => [acc.reverse ++ l]
  | _ + 1, [], acc => [acc.reverse]
  | fuel + 1, c :: rest, acc =>
    if sep.isPrefixOf (c :: rest) then
      acc.reverse :: splitSubAux sep fuel ((c :: rest).drop sep.length) []
    else
      splitSubAux sep fuel rest (c :: acc)

/-- `str.split(sep)`. -/
def splitSub (s sep : String) : List String :=
  if sep.data = [] then [s]
  else (splitSubAux sep.data (s.data.length + 1) s.data []).map String.mk

/-- Whether a string contains `sep` as a substring (the `"x" in s` test). -/
def containsSub (s sep : String) : Bool :=
  (splitSub s sep).length != 1

/-- Truthiness of an optional string (`if x:` in Python: `None` and the
    empty string are falsy). -/
def pyTruthyS (o : Option String) : Bool :=
  match o with
  | some s => !(s = "" : Bool)
  | none => false

/-- Convert a path string to its component list (`pathlib` view of it;
    absolute/relative and `.`/`..` normalisation are outside the model). -/
def parsePath (s : String) : Path :=
  ((splitChar '/' s.data []).filter (fun seg => !(seg = [] : Bool))).map String.mk

/-- Render a path back to a string (for subprocess argument lists). -/
def joinPath (p : Path) : String :=
  p.foldl (fun acc seg => acc ++ "/" ++ seg) ""

/-- `os.path.basename`. -/
def basenameOf (s : String) : String :=
  (parsePath s).getLastD ""

/-- `os.path.expanduser`: expands a leading `~` to `home` (the `~user`
    form is not used by the scripts and is left unexpanded). -/
def expanduser (home s : String) : String :=
  if s = "~" then home
  else if pyStartsWith s "~/" then home ++ strDrop s 1
  else s

/-! ### `_utils/setup_symlinks.py` -/

/-- `get_user_path` (setup_symlinks.py lines 9-28).  The `input()` call
    is modelled by the `response` argument; the caller consumes stdin. -/
def get_user_path (home folder : String) (default_path : Option String) (response : String) :
    Option String :=
  let r := pyStrip response
  if pyTruthyS default_path then
    if !(r = "" : Bool) then some (expanduser home r)
    else some (expanduser home (default_path.getD ""))
  else
    if !(r = "" : Bool) then some (expanduser home r)
    else none

/-- The special-cased target location for a folder name
    (setup_symlinks.py lines 49-55). -/
def targetFor (comfy : Path) (folder : String) : Path :=
  if folder = "workflows" then comfy ++ ["user", "default", "workflows"]
  else if folder = "snapshots" then comfy ++ ["user", "default", "ComfyUI-Manager", "snapshots"]
  else comfy ++ [folder]

/-- One iteration of the symlink-creation loop of `setup_symlinks`
    (setup_symlinks.py lines 46-74): make the target's parents, create
    the source directory if missing, clear whatever occupies the target,
    then symlink the target to the source. -/
def symlinkStepFolder (fs : FS) (target source : Path) : Except Err (FS × List Event) :=
  match mkdirParents fs target.dropLast with
  | Except.error e => Except.error e
  | Except.ok (fs1, ev1) =>
    match (if pexists fs1 source then Except.ok (fs1, ([] : List Event))
           else mkdirParents fs1 source) with
    | Except.error e => Except.error e
    | Except.ok (fs2, ev2) =>
      let c := clearTarget fs2 target
      match symlink_to c.1 target source with
      | Except.error e => Except.error e
      | Except.ok (fs4, ev4) => Except.ok (fs4, ev1 ++ ev2 ++ c.2 ++ ev4)

/-- The per-folder prompt-collection phase of `setup_symlinks`
    (setup_symlinks.py lines 38-43), consuming one stdin line per folder. -/
def collectPaths (home : String) :
    List (String × Option String) → List String → Except Err (List (String × String) × List String)
  | [], stdin => Except.ok ([], stdin)
  | (folder, d) :: rest, stdin =>
    match stdin with
    | [] => Except.error Err.endOfInput
    | r :: stdin1 =>
      match collectPaths home rest stdin1 with
      | Except.error e => Except.error e
      | Except.ok (pairs, stdin2) =>
        match get_user_path home folder d r with
        | some sp => Except.ok ((folder, sp) :: pairs, stdin2)
        | none => Except.ok (pairs, stdin2)

/-- The symlink-creation loop of `setup_symlinks` over the collected
    (folder, source-path) pairs (setup_symlinks.py lines 46-74). -/
def runSymlinkLoop (cp : Path) : FS → List (String × String) → Except Err (FS × List Event)
  | fs, [] => Except.ok (fs, [])
  | fs, (folder, sp) :: rest =>
    match symlinkStepFolder fs (targetFor cp folder) (parsePath sp) with
    | Except.error e => Except.error e
    | Except.ok (fs1, ev1) =>
      match runSymlinkLoop cp fs1 rest with
      | Except.error e => Except.error e
      | Except.ok (fs2, ev2) => Except.ok (fs2, ev1 ++ ev2)

/-- `setup_symlinks` (setup_symlinks.py lines 30-74). -/
def setup_symlinks (fs : FS) (home comfy_path : String)
    (paths : List (String × Option String)) (stdin : List String) :
    Except Err (FS × List String × List Event) :=
  if comfy_path = "" then Except.error (Err.badValue "ComfyUI workspace path not provided")
  else
    let cp := parsePath (expanduser home comfy_path)
    match collectPaths home paths stdin with
    | Except.error e => Except.error e
    | Except.ok (pairs, stdin1) =>
      match runSymlinkLoop cp fs pairs with
      | Except.error e => Except.error e
      | Except.ok (fs1, ev) => Except.ok (fs1, stdin1, ev)

/-- One iteration of `_setup_directory_symlinks` (setup_symlinks.py
    lines 78-95): any existing target is removed first, and only then is
    the source checked; a missing source yields a warning. -/
def dirSymlinkStep (fs : FS) (target source : Path) : Except Err (FS × List Event) :=
  let c := clearTarget fs target
  if pyIsDir c.1 source then
    match symlink_to c.1 target source with
    | Except.error e => Except.error e
    | Except.ok (fs2, ev2) => Except.ok (fs2, c.2 ++ ev2)
  else Except.ok (c.1, c.2 ++ [Event.warnedMissing source])

/-- `_setup_directory_symlinks` (setup_symlinks.py lines 76-95). -/
def setup_directory_symlinks (comfyPath projectRoot : Path) :
    FS → List String → Except Err (FS × List Event)
  | fs, [] => Except.ok (fs, [])
  | fs, d :: rest =>
    match dirSymlinkStep fs (comfyPath ++ [d]) (projectRoot ++ [d]) with
    | Except.error e => Except.error e
    | Except.ok (fs1, ev1) =>
      match setup_directory_symlinks comfyPath projectRoot fs1 rest with
      | Except.error e => Except.error e
      | Except.ok (fs2, ev2) => Except.ok (fs2, ev1 ++ ev2)

/-- The workflows part of `_setup_settings_symlinks` (setup_symlinks.py
    lines 105-120): here the source is checked before anything is
    removed. -/
def settingsWorkflowStep (fs : FS) (wsTarget wsSource : Path) : Except Err (FS × List Event) :=
  if pyIsDir fs wsSource then
    let c := clearTarget fs wsTarget
    match symlink_to c.1 wsTarget wsSource with
    | Except.error e => Except.error e
    | Except.ok (fs2, ev2) => Except.ok (fs2, c.2 ++ ev2)
  else Except.ok (fs, [Event.warnedMissing wsSource])

/-- One settings file of `_setup_settings_symlinks` (setup_symlinks.py
    lines 124-136): an occupied target is unlinked (even a directory,
    which raises), then the symlink is created. -/
def settingsFileStep (fs : FS) (tgtFile srcFile : Path) : Except Err (FS × List Event) :=
  if pyIsFile fs srcFile then
    match (if pexists fs tgtFile || pyIsSymlink fs tgtFile then unlinkFile fs tgtFile
           else Except.ok (fs, ([] : List Event))) with
    | Except.error e => Except.error e
    | Except.ok (fs1, ev1) =>
      match symlink_to fs1 tgtFile srcFile with
      | Except.error e => Except.error e
      | Except.ok (fs2, ev2) => Except.ok (fs2, ev1 ++ ev2)
  else Except.ok (fs, [Event.warnedMissing srcFile])

/-- The settings-files loop of `_setup_settings_symlinks`. -/
def settingsFilesLoop (udT udS : Path) : FS → List Seg → Except Err (FS × List Event)
  | fs, [] => Except.ok (fs, [])
  | fs, f :: rest =>
    match settingsFileStep fs (udT ++ [f]) (udS ++ [f]) with
    | Except.error e => Except.error e
    | Except.ok (fs1, ev1) =>
      match settingsFilesLoop udT udS fs1 rest with
      | Except.error e => Except.error e
      | Except.ok (fs2, ev2) => Except.ok (fs2, ev1 ++ ev2)

/-- `_setup_settings_symlinks` (setup_symlinks.py lines 97-136). -/
def setup_settings_symlinks (fs : FS) (comfyPath projectRoot : Path) :
    Except Err (FS × List Event) :=
  let udT := comfyPath ++ ["user", "default"]
  let udS := projectRoot ++ ["user", "default"]
  match mkdirParents fs udT with
  | Except.error e => Except.error e
  | Except.ok (fs1, ev1) =>
    match settingsWorkflowStep fs1 (udT ++ ["workflows"]) (udS ++ ["workflows"]) with
    | Except.error e => Except.error e
    | Except.ok (fs2, ev2) =>
      match settingsFilesLoop udT udS fs2 ["comfy.settings.json", "jnodes.settings.json"] with
      | Except.error e => Except.error e
      | Except.ok (fs3, ev3) => Except.ok (fs3, ev1 ++ ev2 ++ ev3)

/-- The observable end of a script process. -/
inductive ScriptOutcome where
  /-- the process exited with `code` (via `sys.exit` or falling off `main`) -/
  | exited (code : Nat) (ev : List Event)
  /-- an exception propagated out of `main` uncaught (the interpreter
      prints a traceback and exits nonzero) -/
  | uncaught (e : Err) (ev : List Event)
deriving DecidableEq, Repr

/-- The exit status of the process for an outcome (an uncaught Python
    exception makes the interpreter exit 1). -/
def exitCode : ScriptOutcome → Nat
  | ScriptOutcome.exited n _ => n
  | ScriptOutcome.uncaught _ _ => 1

/-- `main` of setup_symlinks.py (lines 153-163): the whole body runs
    under `try`, a caught exception prints to stderr and exits 1. -/
def setupSymlinksMain (fs : FS) (home comfy_path : String)
    (paths : List (String × Option String)) (stdin : List String) : ScriptOutcome :=
  match setup_symlinks fs home comfy_path paths stdin with
  | Except.ok (_, _, ev) => ScriptOutcome.exited 0 ev
  | Except.error e => ScriptOutcome.exited 1 [Event.printedErr e]

/-! ### `_utils/manager_utils.py` -/

/-- `get_available_snapshots` (manager_utils.py lines 34-38): the names
    of the `*.json` entries directly inside `dir`. -/
def get_available_snapshots (fs : FS) (dir : Path) : List String :=
  if !(pexists fs dir) then []
  else fs.filterMap (fun e =>
    if (e.1.dropLast = dir : Bool) && pyEndsWith (e.1.getLastD "") ".json" then
      some (e.1.getLastD "")
    else none)

/-- `get_user_selection` (manager_utils.py lines 40-53).  The printed
    option list does not affect the result. -/
def get_user_selection (prompt : String) (default : Option String)
    (options : Option (List String)) (stdin : List String) :
    Except Err (Option String × List String) :=
  match stdin with
  | [] => Except.error Err.endOfInput
  | r :: rest =>
    let r := pyStrip r
    if pyTruthyS default then
      Except.ok ((if !(r = "" : Bool) then some r else default), rest)
    else
      Except.ok ((if !(r = "" : Bool) then some r else none), rest)

/-- The copy phase of `setup_manager_config` (manager_utils.py lines
    97-104): create the target directory, unlink an existing
    `config.ini`, copy the source over. -/
def copyManagerConfig (fs : FS) (target_dir target_file source_path : Path)
    (stdin : List String) : Except Err (FS × List String × List Event) :=
  match mkdirParents fs target_dir with
  | Except.error e => Except.error e
  | Except.ok (fs1, ev1) =>
    match (if pexists fs1 target_file then unlinkFile fs1 target_file
           else Except.ok (fs1, ([] : List Event))) with
    | Except.error e => Except.error e
    | Except.ok (fs2, ev2) =>
      let c := copy2 fs2 target_file "config.ini"
      Except.ok (c.1, stdin, ev1 ++ ev2 ++ c.2)

/-- `setup_manager_config` (manager_utils.py lines 55-104). -/
def setup_manager_config (fs : FS) (home : String) (comfy_path : Path)
    (config_source : Option String) (skip_prompt : Bool) (stdin : List String) :
    Except Err (FS × List String × List Event) :=
  let target_dir := comfy_path ++ ["user", "default", "ComfyUI-Manager"]
  let target_file := target_dir ++ ["config.ini"]
  if skip_prompt then
    if !(pyTruthyS config_source) then
      Except.ok (fs, stdin, [Event.info "No ComfyUI-Manager config.ini specified, skipping configuration"])
    else
      let source_path := parsePath (expanduser home (config_source.getD ""))
      if !(pyIsFile fs source_path) then
        Except.ok (fs, stdin, [Event.info "ComfyUI-Manager config.ini not found, skipping configuration"])
      else copyManagerConfig fs target_dir target_file source_path stdin
  else
    let fromDefault : Option Path × List Event :=
      if pyTruthyS config_source then
        let default_path := parsePath (expanduser home (config_source.getD ""))
        if pyIsFile fs default_path then (some default_path, [])
        else (none, [Event.warnedMissing default_path])
      else (none, [])
    match fromDefault.1 with
    | some source_path =>
      if !(pyIsFile fs source_path) then
        Except.ok (fs, stdin, fromDefault.2 ++ [Event.warnedMissing source_path])
      else copyManagerConfig fs target_dir target_file source_path stdin
    | none =>
      match get_user_selection "Enter path to ComfyUI-Manager config.ini" none none stdin with
      | Except.error e => Except.error e
      | Except.ok (resp, stdin1) =>
        match resp with
        | none =>
          Except.ok (fs, stdin1, fromDefault.2 ++ [Event.info "Skipping ComfyUI-Manager configuration"])
        | some r =>
          let source_path := parsePath (expanduser home r)
          if !(pyIsFile fs source_path) then
            Except.ok (fs, stdin1, fromDefault.2 ++ [Event.warnedMissing source_path])
          else copyManagerConfig fs target_dir target_file source_path stdin1

/-- The `comfy node restore-snapshot` call of `restore_snapshot`
    (manager_utils.py lines 161-167): run with `check=True` inside
    `try`, so a failure is caught and logged and the function returns
    normally. -/
def runRestoreCmd (source_path : Path) (stdin : List String) (restoreOk : Bool) :
    Except Err (List String × List Event) :=
  let cmd := ["comfy", "node", "restore-snapshot", joinPath source_path]
  if restoreOk then
    Except.ok (stdin, [Event.ran cmd true true, Event.info "Snapshot restored successfully"])
  else
    Except.ok (stdin, [Event.ran cmd false true, Event.caughtProcessError cmd])

/-- The common tail of `restore_snapshot`'s interactive branch
    (manager_utils.py lines 153-167). -/
def restoreCont (fs : FS) (source : Option Path) (stdin : List String) (restoreOk : Bool) :
    Except Err (List String × List Event) :=
  match source with
  | none => Except.ok (stdin, [Event.info "Skipping snapshot restore"])
  | some sp =>
    if !(pyIsFile fs sp) then Except.ok (stdin, [Event.warnedMissing sp])
    else runRestoreCmd sp stdin restoreOk

/-- `restore_snapshot` (manager_utils.py lines 106-167). -/
def restore_snapshot (fs : FS) (home : String) (comfy_path : Path)
    (snapshot_path : Option String) (skip_prompt : Bool) (stdin : List String)
    (restoreOk : Bool) : Except Err (List String × List Event) :=
  if skip_prompt then
    if !(pyTruthyS snapshot_path) then
      Except.ok (stdin, [Event.info "No snapshot specified, skipping restore"])
    else
      let source_path := parsePath (expanduser home (snapshot_path.getD ""))
      if !(pyIsFile fs source_path) then
        Except.ok (stdin, [Event.info "Snapshot not found, skipping restore"])
      else runRestoreCmd source_path stdin restoreOk
  else
    let snapshots_dir := comfy_path ++ ["user", "default", "ComfyUI-Manager", "snapshots"]
    let avail := get_available_snapshots fs snapshots_dir
    if pyTruthyS snapshot_path then
      let default_path := expanduser home (snapshot_path.getD "")
      if !(avail = [] : Bool) then
        match get_user_selection "Select snapshot to restore" (some (basenameOf default_path))
            (some avail) stdin with
        | Except.error e => Except.error e
        | Except.ok (resp, stdin1) =>
          restoreCont fs (resp.map (fun r => snapshots_dir ++ parsePath r)) stdin1 restoreOk
      else
        match get_user_selection "Enter path to snapshot file" (some default_path) none stdin with
        | Except.error e => Except.error e
        | Except.ok (resp, stdin1) =>
          restoreCont fs (resp.map (fun r => parsePath (expanduser home r))) stdin1 restoreOk
    else
      if !(avail = [] : Bool) then
        match get_user_selection "Select snapshot to restore" none (some avail) stdin with
        | Except.error e => Except.error e
        | Except.ok (resp, stdin1) =>
          restoreCont fs (resp.map (fun r => snapshots_dir ++ parsePath r)) stdin1 restoreOk
      else
        match get_user_selection "Enter path to snapshot file" none none stdin with
        | Except.error e => Except.error e
        | Except.ok (resp, stdin1) =>
          restoreCont fs (resp.map (fun r => parsePath (expanduser home r))) stdin1 restoreOk

/-- `main` of manager_utils.py (lines 182-196): no `try` anywhere, so
    an exception raised by either step propagates uncaught; normal
    completion means the interpreter exits 0.  Log lines emitted before
    an uncaught raise are not retained in the outcome's trace. -/
def managerMain (fs : FS) (home comfy_path : String)
    (manager_config snapshot : Option String) (skip_prompt : Bool)
    (stdin : List String) (restoreOk : Bool) : ScriptOutcome :=
  match setup_manager_config fs home (parsePath comfy_path) manager_config skip_prompt stdin with
  | Except.error e => ScriptOutcome.uncaught e []
  | Except.ok (fs1, stdin1, ev1) =>
    match restore_snapshot fs1 home (parsePath comfy_path) snapshot skip_prompt stdin1 restoreOk with
    | Except.error e => ScriptOutcome.uncaught e ev1
    | Except.ok (_, ev2) => ScriptOutcome.exited 0 (ev1 ++ ev2)

/-! ### `comfy_config.py` -/

/-- The two module-level timestamps of comfy_config.py (lines 37-38),
    the only module-level variables the script reassigns (under the
    `global` declaration in `print_time_diff`).  `time.time()` values
    are abstracted to naturals. -/
structure TimerState where
  start_time : Option Nat
  last_step_time : Option Nat
deriving DecidableEq, Repr

/-- `print_time_diff` (comfy_config.py lines 40-59) as a transition on
    the module state, also returning the log lines it prints. -/
def print_time_diff (st : TimerState) (now : Nat) (step_name : String) (is_final : Bool) :
    TimerState × List String :=
  let start := match st.start_time with
    | none => now
    | some s => s
  let msgs1 := match st.last_step_time with
    | some l => [step_name ++ " completed in " ++ toString (now - l) ++ " seconds"]
    | none => []
  let msgs2 := if is_final then
      ["Total configuration time: " ++ toString (now - start) ++ " seconds"]
    else []
  (TimerState.mk (some start) (some now), msgs1 ++ msgs2)

/-- Run a sequence of `print_time_diff` calls from a given state. -/
def runTimer : TimerState → List (Nat × String × Bool) → TimerState
  | st, [] => st
  | st, (now, name, fin) :: rest => runTimer (print_time_diff st now name fin).1 rest

/-- `get_user_confirmation` (comfy_config.py lines 72-78): `True`
    without reading stdin when `skip_prompt`, else `False` exactly when
    the lowered, stripped response is the single character `n`. -/
def get_user_confirmation (message : String) (skip_prompt : Bool) (stdin : List String) :
    Except Err (Bool × List String) :=
  if skip_prompt then Except.ok (true, stdin)
  else
    match stdin with
    | [] => Except.error Err.endOfInput
    | r :: rest => Except.ok (!(pyStrip (pyLower r) = "n" : Bool), rest)

/-- The environment a `comfy_config.py` run observes: command line,
    stdin, `.env`-sourced variables, and the outcomes of the
    subprocesses it launches. -/
structure CCEnv where
  argv : List String
  stdin : List String
  home : String
  envComfyPath : Option String
  envDefaultGpu : Option String
  envManagerConfig : Option String
  envSnapshotPath : Option String
  envInputDir : Option String
  envOutputDir : Option String
  envModelsDir : Option String
  envSnapshotDir : Option String
  envWorkflowDir : Option String
  envUserSettingsDir : Option String
  /-- `comfy --version` succeeded (check_comfy_cli_installed, lines 80-91) -/
  comfyCliInstalled : Bool
  /-- exit status of `pip install comfy-cli` -/
  pipOk : Bool
  /-- return code of `comfy which` -/
  whichRet : Nat
  /-- stdout of `comfy which` -/
  whichOut : String
  /-- exit status of `comfy set-default` -/
  setDefaultOk : Bool
  /-- exit status of `comfy ... install` -/
  installOk : Bool
  managerScriptExists : Bool
  symlinkScriptExists : Bool
  /-- exit status of the setup_symlinks.py subprocess (ignored by the code) -/
  symlinkRunOk : Bool
  /-- exit status of the manager_utils.py subprocess (ignored by the code) -/
  managerRunOk : Bool
deriving DecidableEq, Repr

/-- `install_comfy_cli` (comfy_config.py lines 93-113): the pip
    subprocess's return code is checked; a nonzero code is logged and
    reported as `False`.  Returns (success, remaining stdin, events). -/
def install_comfy_cli (skip_prompt : Bool) (stdin : List String) (pipOk : Bool) :
    Except Err (Bool × List String × List Event) :=
  let cmd := ["python", "-m", "pip", "install", "comfy-cli"]
  let pipPart := fun (stdin1 : List String) =>
    if pipOk then
      Except.ok (true, stdin1, [Event.ran cmd true false])
    else
      Except.ok (false, stdin1, [Event.ran cmd false false, Event.loggedFailure cmd])
  if !skip_prompt then
    match get_user_confirmation "comfy-cli not found. Would you like to install it?" false stdin with
    | Except.error e => Except.error e
    | Except.ok (conf, stdin1) =>
      if !conf then Except.ok (false, stdin1, [Event.info "User declined comfy-cli installation"])
      else pipPart stdin1
  else pipPart stdin

/-- `get_comfy_workspace` (comfy_config.py lines 115-141): parse the
    `comfy which` output (peeling a `Target ComfyUI path:` warning
    wrapper) and validate that the workspace and its `main.py` exist.
    The broad `except` around the subprocess call is folded into the
    nonzero-return-code case: either way the function logs and returns
    `None`. -/
def get_comfy_workspace (fs : FS) (whichRet : Nat) (whichOut : String) :
    Option String × List Event :=
  if whichRet = 0 then
    let ws0 := pyStrip whichOut
    let ws := if containsSub ws0 "Target ComfyUI path:" then
        pyStrip ((splitSub ws0 "Target ComfyUI path:").getLastD "")
      else ws0
    if pexists fs (parsePath ws) && pexists fs (parsePath ws ++ ["main.py"]) then
      (some ws, [])
    else (none, [Event.warnedMissing (parsePath ws)])
  else (none, [Event.info "No active workspace found"])

/-- The GPU flag appended to the install command in skip-prompt mode
    (comfy_config.py lines 259-264). -/
def gpuFlags (envDefaultGpu : Option String) : List String :=
  if pyTruthyS envDefaultGpu then
    let g := pyLower (envDefaultGpu.getD "")
    if g = "nvidia" || g = "amd" || g = "intel_arc" || g = "cpu" then ["--" ++ g] else []
  else []

/-- `setup_default_workspace` (comfy_config.py lines 215-277).  The
    `comfy set-default` on an existing installation runs with
    `check=True` inside `try` (failure caught and logged); the install
    path runs its two `check=True` subprocesses outside any `try`, so
    their failures raise. -/
def setup_default_workspace (env : CCEnv) (fs : FS) (skip_prompt : Bool) (stdin : List String) :
    Except Err (Option String × List String × List Event) :=
  let envCheck : Option String × List Event :=
    if pyTruthyS env.envComfyPath then
      let cp := env.envComfyPath.getD ""
      if pexists fs (parsePath cp) && pexists fs (parsePath cp ++ ["main.py"]) then (some cp, [])
      else (none, [Event.warnedMissing (parsePath cp)])
    else (none, [])
  match envCheck.1 with
  | some cp => Except.ok (some cp, stdin, envCheck.2)
  | none =>
    let default_path := parsePath env.home ++ ["ComfyUI"]
    if pexists fs default_path then
      match (if !skip_prompt then
               get_user_confirmation "Would you like to set it as the default workspace?" false stdin
             else Except.ok (true, stdin)) with
      | Except.error e => Except.error e
      | Except.ok (conf, stdin1) =>
        if !conf then
          Except.ok (none, stdin1, envCheck.2 ++ [Event.info "User declined to set default workspace"])
        else
          let cmd := ["comfy", "set-default", joinPath default_path]
          if env.setDefaultOk then
            Except.ok (some (joinPath default_path), stdin1, envCheck.2 ++ [Event.ran cmd true true])
          else
            Except.ok (none, stdin1,
              envCheck.2 ++ [Event.ran cmd false true, Event.caughtProcessError cmd])
    else
      match (if !skip_prompt then
               get_user_confirmation "Would you like to install ComfyUI?" false stdin
             else Except.ok (true, stdin)) with
      | Except.error e => Except.error e
      | Except.ok (conf, stdin1) =>
        if !conf then
          Except.ok (none, stdin1, envCheck.2 ++ [Event.info "User declined ComfyUI installation"])
        else
          let install_cmd := ["comfy", "--workspace", joinPath default_path, "install"]
            ++ (if skip_prompt then ["--skip-prompt"] ++ gpuFlags env.envDefaultGpu else [])
          if !env.installOk then Except.error (Err.processError install_cmd)
          else
            let cmd2 := ["comfy", "set-default", joinPath default_path]
            if !env.setDefaultOk then Except.error (Err.processError cmd2)
            else
              let w := get_comfy_workspace fs env.whichRet env.whichOut
              match w.1 with
              | some ws =>
                Except.ok (some ws, stdin1,
                  envCheck.2 ++ [Event.ran install_cmd true true, Event.ran cmd2 true true] ++ w.2)
              | none =>
                Except.ok (none, stdin1,
                  envCheck.2 ++ [Event.ran install_cmd true true, Event.ran cmd2 true true] ++ w.2
                    ++ [Event.info "Failed to verify workspace after installation"])

/-- `get_symlink_defaults` (comfy_config.py lines 279-287). -/
def get_symlink_defaults (env : CCEnv) : List (String × Option String) :=
  [("input", env.envInputDir), ("output", env.envOutputDir), ("models", env.envModelsDir),
   ("snapshots", env.envSnapshotDir), ("workflows", env.envWorkflowDir)]

/-- The `--key=value` command-line lookup of the symlink section
    (comfy_config.py line 472). -/
def argValueFor (argv : List String) (key : String) : Option String :=
  match argv.find? (fun a => pyStartsWith a ("--" ++ key ++ "=")) with
  | some a => some ((splitSub a "=").getD 1 "")
  | none => none

/-- The names of the `*.json` entries directly inside `dir`
    (`Path(...).glob('*.json')`). -/
def jsonChildren (fs : FS) (dir : Path) : List Seg :=
  fs.filterMap (fun e =>
    if (e.1.dropLast = dir : Bool) && pyEndsWith (e.1.getLastD "") ".json" then
      some (e.1.getLastD "")
    else none)

/-- `_copy_settings_files` (comfy_config.py lines 294-304). -/
def copySettingsFiles (fs : FS) (target_dir : Path) (names : List Seg) :
    Except Err (FS × List Event) :=
  match mkdirParents fs target_dir with
  | Except.error e => Except.error e
  | Except.ok (fs1, ev1) =>
    let step := fun (acc : FS × List Event) (name : Seg) =>
      let c := copy2 acc.1 (target_dir ++ [name]) name
      (c.1, acc.2 ++ c.2)
    let r := names.foldl step (fs1, ev1)
    Except.ok r

/-- `copy_user_settings` (comfy_config.py lines 306-354). -/
def copy_user_settings (env : CCEnv) (fs : FS) (workspace : String) (skip_prompt : Bool)
    (stdin : List String) : Except Err (FS × List String × List Event) :=
  let target_dir := parsePath workspace ++ ["user", "default"]
  if skip_prompt then
    if !(pyTruthyS env.envUserSettingsDir) then
      Except.ok (fs, stdin, [Event.info "No USER_SETTINGS_DIR specified, skipping settings copy"])
    else
      let settings_dir := expanduser env.home (env.envUserSettingsDir.getD "")
      if !(pexists fs (parsePath settings_dir)) then
        Except.ok (fs, stdin, [Event.info "Settings directory not found, skipping settings copy"])
      else
        let names := jsonChildren fs (parsePath settings_dir)
        if (names = [] : Bool) then
          Except.ok (fs, stdin, [Event.info "No JSON files found, skipping settings copy"])
        else
          match copySettingsFiles fs target_dir names with
          | Except.error e => Except.error e
          | Except.ok (fs1, ev) => Except.ok (fs1, stdin, ev)
  else
    match stdin with
    | [] => Except.error Err.endOfInput
    | r :: stdin1 =>
      let r := pyStrip r
      let chosen : Option String :=
        if pyTruthyS env.envUserSettingsDir && (r = "" : Bool) then
          some (expanduser env.home (env.envUserSettingsDir.getD ""))
        else if !(r = "" : Bool) then some (expanduser env.home r)
        else none
      match chosen with
      | none => Except.ok (fs, stdin1, [])
      | some settings_dir =>
        if !(pexists fs (parsePath settings_dir)) then
          Except.ok (fs, stdin1, [Event.warnedMissing (parsePath settings_dir)])
        else
          let names := jsonChildren fs (parsePath settings_dir)
          if (names = [] : Bool) then
            Except.ok (fs, stdin1, [Event.warnedMissing (parsePath settings_dir)])
          else
            match copySettingsFiles fs target_dir names with
            | Except.error e => Except.error e
            | Except.ok (fs1, ev) => Except.ok (fs1, stdin1, ev)

/-- `handle_manager_setup` (comfy_config.py lines 356-401): the
    manager-utilities subprocess is launched without `check` and its
    exit status (`env.managerRunOk`) is discarded.  Note the
    confirmation at line 383 never passes `skip_prompt`, so it always
    reads stdin. -/
def handle_manager_setup (env : CCEnv) (fs : FS) (workspace : String) (skip_prompt : Bool)
    (stdin : List String) : Except Err (List String × List Event) :=
  if !env.managerScriptExists then
    Except.ok (stdin, [Event.info "Manager utilities script not found"])
  else
    let mc : Option String × List Event :=
      if pyTruthyS env.envManagerConfig then
        let expanded := expanduser env.home (env.envManagerConfig.getD "")
        if pyIsFile fs (parsePath expanded) then (some expanded, [])
        else (none, [Event.warnedMissing (parsePath expanded)])
      else (none, [])
    match get_user_confirmation "Would you like to configure ComfyUI-Manager?" false stdin with
    | Except.error e => Except.error e
    | Except.ok (conf, stdin1) =>
      if !conf then Except.ok (stdin1, mc.2)
      else
        let args := ["python", "manager_utils.py", "--comfy-path", workspace]
          ++ (match mc.1 with
              | some expanded => ["--manager-config", expanded]
              | none => [])
          ++ (if pyTruthyS env.envSnapshotPath then
                ["--snapshot", env.envSnapshotPath.getD ""]
              else [])
          ++ (if skip_prompt then ["--skip-prompt"] else [])
        Except.ok (stdin1, mc.2 ++ [Event.ran args env.managerRunOk false])

/-- The workspace-resolution block of `main` (comfy_config.py lines
    425-451): returns the workspace, or `none` when `main` should exit
    with status 1. -/
def resolveWorkspace (env : CCEnv) (fs : FS) (skip_prompt : Bool) (stdin : List String) :
    Except Err (Option String × List String × List Event) :=
  let fallback := fun (ev0 : List Event) (stdin0 : List String) =>
    let w := get_comfy_workspace fs env.whichRet env.whichOut
    match w.1 with
    | some ws => Except.ok ((some ws : Option String), stdin0, ev0 ++ w.2)
    | none =>
      match setup_default_workspace env fs skip_prompt stdin0 with
      | Except.error e => Except.error e
      | Except.ok (r, stdin1, ev1) =>
        match r with
        | some ws => Except.ok (some ws, stdin1, ev0 ++ w.2 ++ ev1)
        | none =>
          Except.ok (none, stdin1,
            ev0 ++ w.2 ++ ev1 ++ [Event.info "Failed to setup default workspace. Exiting."])
  if !(pyTruthyS env.envComfyPath) then fallback [] stdin
  else
    let cp := env.envComfyPath.getD ""
    if pexists fs (parsePath cp) && pexists fs (parsePath cp ++ ["main.py"]) then
      Except.ok (some cp, stdin, [])
    else fallback [Event.warnedMissing (parsePath cp)] stdin

/-- The symlink-configuration section of `main` (comfy_config.py lines
    459-491).  The setup_symlinks.py subprocess is launched without
    `check`; its exit status (`env.symlinkRunOk`) is discarded. -/
def symlinkSection (env : CCEnv) (fs : FS) (workspace : String) (skip_prompt : Bool)
    (stdin : List String) : Except Err (List String × List Event) :=
  if !env.symlinkScriptExists then
    Except.ok (stdin, [Event.info "Symlink configuration script not found in _utils folder"])
  else
    let defaults := get_symlink_defaults env
    if skip_prompt then
      let pairs := defaults.foldl
        (fun acc kd =>
          let v0 := argValueFor env.argv kd.1
          let v1 := if !(pyTruthyS v0) && pyTruthyS kd.2 then kd.2 else v0
          if pyTruthyS v1 then acc ++ [("--" ++ kd.1, v1.getD "")] else acc)
        ([] : List (String × String))
      if !(pairs = [] : Bool) then
        let cmd := ["python", "setup_symlinks.py", "--comfy-path", workspace]
          ++ pairs.foldl (fun acc p => acc ++ [p.1, p.2]) []
        Except.ok (stdin, [Event.ran cmd env.symlinkRunOk false])
      else Except.ok (stdin, [])
    else
      match get_user_confirmation "Would you like to configure symlinks for ComfyUI assets?"
          false stdin with
      | Except.error e => Except.error e
      | Except.ok (conf, stdin1) =>
        if !conf then Except.ok (stdin1, [])
        else
          let pairs := defaults.foldl
            (fun acc kd =>
              if pyTruthyS kd.2 then acc ++ [("--" ++ kd.1, kd.2.getD "")] else acc)
            ([] : List (String × String))
          let cmd := ["python", "setup_symlinks.py", "--comfy-path", workspace]
            ++ pairs.foldl (fun acc p => acc ++ [p.1, p.2]) []
          Except.ok (stdin1, [Event.ran cmd env.symlinkRunOk false])

/-- `main` of comfy_config.py (lines 403-505).  There is no top-level
    `try`, so any exception raised below propagates uncaught; the
    explicit failure exits use status 1 and the final exit uses 0.
    The `print_time_diff` timing log lines are omitted from the trace. -/
def comfyConfigMain (env : CCEnv) (fs : FS) : ScriptOutcome :=
  let skip_prompt := env.argv.contains "--skip-prompt"
  match (if !env.comfyCliInstalled then install_comfy_cli skip_prompt env.stdin env.pipOk
         else Except.ok (true, env.stdin, ([] : List Event))) with
  | Except.error e => ScriptOutcome.uncaught e []
  | Except.ok (instOk, stdin1, ev1) =>
    if !instOk then
      ScriptOutcome.exited 1 (ev1 ++ [Event.info "Failed to install comfy-cli. Exiting."])
    else
    match resolveWorkspace env fs skip_prompt stdin1 with
    | Except.error e => ScriptOutcome.uncaught e ev1
    | Except.ok (wsOpt, stdin2, ev2) =>
      match wsOpt with
      | none => ScriptOutcome.exited 1 (ev1 ++ ev2)
      | some ws =>
        match symlinkSection env fs ws skip_prompt stdin2 with
        | Except.error e => ScriptOutcome.uncaught e (ev1 ++ ev2)
        | Except.ok (stdin3, ev3) =>
          match get_user_confirmation "Would you like to copy user settings?" false stdin3 with
          | Except.error e => ScriptOutcome.uncaught e (ev1 ++ ev2 ++ ev3)
          | Except.ok (conf, stdin4) =>
            let afterCopy : Except Err (FS × List String × List Event) :=
              if conf then copy_user_settings env fs ws skip_prompt stdin4
              else Except.ok (fs, stdin4, [])
            match afterCopy with
            | Except.error e => ScriptOutcome.uncaught e (ev1 ++ ev2 ++ ev3)
            | Except.ok (fs5, stdin5, ev5) =>
              match handle_manager_setup env fs5 ws skip_prompt stdin5 with
              | Except.error e => ScriptOutcome.uncaught e (ev1 ++ ev2 ++ ev3 ++ ev5)
              | Except.ok (_, ev6) =>
                ScriptOutcome.exited 0 (ev1 ++ ev2 ++ ev3 ++ ev5 ++ ev6)

/-- Whether a result is a `FileExistsError` raised by `symlink_to`
    (the collision the invariant claims rule out). -/
def isOccupiedErr {α : Type} : Except Err α → Bool
  | Except.error (Err.targetOccupied _) => true
  | _ => false

/-! ### Helper lemmas about the filesystem model -/

theorem pfx_refl (p : Path) : pfx p p = true := by
  induction p with
  | nil => rfl
  | cons a as ih => simp [pfx, ih]

theorem lookup_eraseP (fs : FS) (q p : Path) :
    lookup (eraseP fs q) p = if p = q then none else lookup fs p := by
  induction fs with
  | nil => simp [eraseP, lookup]
  | cons e rest ih =>
    simp only [eraseP]
    by_cases hq : e.1 = q
    · rw [if_pos hq, ih]
      by_cases hp : p = q
      · simp [hp, lookup]
      · have hep : ¬(e.1 = p) := by
          rw [hq]; exact fun h => hp h.symm
        simp [hp, hep, lookup]
    · rw [if_neg hq]
      simp only [lookup]
      by_cases hep : e.1 = p
      · have hp : ¬(p = q) := by
          rw [← hep]; exact hq
        simp [hep, hp]
      · rw [if_neg hep, ih]
        by_cases hp : p = q
        · simp [hp]
        · simp [hp, lookup, hep]

theorem lookup_eraseTree (fs : FS) (t p : Path) :
    lookup (eraseTree fs t) p = if pfx t p then none else lookup fs p := by
  induction fs with
  | nil => simp [eraseTree, lookup]
  | cons e rest ih =>
    simp only [eraseTree]
    by_cases hq : pfx t e.1 = true
    · rw [if_pos hq, ih]
      by_cases hp : pfx t p = true
      · simp [hp]
      · have hep : ¬(e.1 = p) := fun h => hp (h ▸ hq)
        simp [hp, hep, lookup]
    · rw [if_neg hq]
      simp only [lookup]
      by_cases hep : e.1 = p
      · have hp : pfx t p ≠ true := by
          rw [← hep]; exact hq
        simp [hep, hp]
      · rw [if_neg hep, ih]
        by_cases hp : pfx t p = true
        · simp [hp]
        · simp [hp, hep]

theorem lookup_insertP (fs : FS) (q : Path) (n : Node) (p : Path) :
    lookup (insertP fs q n) p = if p = q then some n else lookup fs p := by
  by_cases hp : q = p
  · simp [insertP, lookup, hp]
  · have hpq : ¬(p = q) := fun h => hp h.symm
    simp [insertP, lookup, hp, hpq, lookup_eraseP]

/-- Resolution of a path occupied by a plain file. -/
theorem resolveNode_of_file (fs : FS) (p : Path) (h : lookup fs p = some Node.file) :
    resolveNode fs p = some Node.file := by
  simp [resolveNode, resolveN, h]

/-- Resolution of a path occupied by a real directory. -/
theorem resolveNode_of_dir (fs : FS) (p : Path) (h : lookup fs p = some Node.dir) :
    resolveNode fs p = some Node.dir := by
  simp [resolveNode, resolveN, h]

/-- `exists-or-is_symlink` is exactly occupancy of the path. -/
theorem occupied_iff (fs : FS) (t : Path) :
    (pexists fs t || pyIsSymlink fs t) = (lookup fs t).isSome := by
  cases h : lookup fs t with
  | none => simp [pexists, pyIsSymlink, resolveNode, resolveN, h]
  | some n =>
    cases n with
    | file => simp [pexists, pyIsSymlink, resolveNode, resolveN, h]
    | dir => simp [pexists, pyIsSymlink, resolveNode, resolveN, h]
    | symlink u => simp [pexists, pyIsSymlink, h]

/-- `clearTarget` in terms of the node occupying the target. -/
theorem clearTarget_eq (fs : FS) (t : Path) :
    clearTarget fs t =
      match lookup fs t with
      | none => (fs, [])
      | some Node.dir => (eraseTree fs t, [Event.removedTree t])
      | some Node.file => (eraseP fs t, [Event.removedFile t])
      | some (Node.symlink _) => (eraseP fs t, [Event.removedFile t]) := by
  cases h : lookup fs t with
  | none =>
    have hex : pexists fs t = false := by simp [pexists, resolveNode, resolveN, h]
    have hs : pyIsSymlink fs t = false := by simp [pyIsSymlink, h]
    simp [clearTarget, hex, hs]
  | some n =>
    cases n with
    | dir =>
      have hex : pexists fs t = true := by simp [pexists, resolveNode, resolveN, h]
      have hd : pyIsDir fs t = true := by simp [pyIsDir, resolveNode, resolveN, h]
      have hs : pyIsSymlink fs t = false := by simp [pyIsSymlink, h]
      simp [clearTarget, hex, hd, hs]
    | file =>
      have hex : pexists fs t = true := by simp [pexists, resolveNode, resolveN, h]
      have hd : pyIsDir fs t = false := by simp [pyIsDir, resolveNode, resolveN, h]
      simp [clearTarget, hex, hd]
    | symlink u =>
      have hs : pyIsSymlink fs t = true := by simp [pyIsSymlink, h]
      simp [clearTarget, hs]

/-- After clearing, nothing occupies the target. -/
theorem lookup_clearTarget_self (fs : FS) (t : Path) :
    lookup (clearTarget fs t).1 t = none := by
  rw [clearTarget_eq]
  cases h : lookup fs t with
  | none => simpa using h
  | some n =>
    cases n with
    | dir => simp [lookup_eraseTree, pfx_refl]
    | file => simp [lookup_eraseP]
    | symlink u => simp [lookup_eraseP]

/-- Clearing a target does not touch paths outside the target's subtree. -/
theorem lookup_clearTarget_other (fs : FS) (t p : Path) (h : pfx t p = false) :
    lookup (clearTarget fs t).1 p = lookup fs p := by
  have hne : ¬(p = t) := by
    intro he
    rw [he, pfx_refl] at h
    exact Bool.true_eq_false.mp h
  rw [clearTarget_eq]
  cases hl : lookup fs t with
  | none => rfl
  | some n =>
    cases n with
    | dir => simp [lookup_eraseTree, h]
    | file => simp [lookup_eraseP, hne]
    | symlink u => simp [lookup_eraseP, hne]

/-- `mkdirOne` keeps every existing entry. -/
theorem mkdirOne_preserves (fs fs2 : FS) (ev : List Event) (a q : Path) (n : Node)
    (h : mkdirOne fs a = Except.ok (fs2, ev)) (hl : lookup fs q = some n) :
    lookup fs2 q = some n := by
  unfold mkdirOne at h
  cases ha : lookup fs a with
  | none =>
    rw [ha] at h
    cases h
    rw [lookup_insertP]
    by_cases hq : q = a
    · rw [hq] at hl
      rw [hl] at ha
      cases ha
    · simp [hq, hl]
  | some m =>
    cases m with
    | file => rw [ha] at h; cases h
    | dir => rw [ha] at h; cases h; exact hl
    | symlink u =>
      rw [ha] at h
      by_cases hd : pyIsDir fs a = true
      · simp [hd] at h
        rw [← h.1]
        exact hl
      · simp [hd] at h

/-- `mkdirOne` changes nothing away from its argument. -/
theorem mkdirOne_outside (fs fs2 : FS) (ev : List Event) (a q : Path)
    (h : mkdirOne fs a = Except.ok (fs2, ev)) (hne : ¬(q = a)) :
    lookup fs2 q = lookup fs q := by
  unfold mkdirOne at h
  cases ha : lookup fs a with
  | none =>
    rw [ha] at h
    cases h
    simp [lookup_insertP, hne]
  | some m =>
    cases m with
    | file => rw [ha] at h; cases h
    | dir => rw [ha] at h; cases h; rfl
    | symlink u =>
      rw [ha] at h
      by_cases hd : pyIsDir fs a = true
      · simp [hd] at h
        rw [← h.1]
      · simp [hd] at h

/-- `mkdirOne` can only fail with a `mkdirConflict`. -/
theorem mkdirOne_err (fs : FS) (a : Path) (e : Err) (h : mkdirOne fs a = Except.error e) :
    e = Err.mkdirConflict a := by
  unfold mkdirOne at h
  cases ha : lookup fs a with
  | none => rw [ha] at h; cases h
  | some m =>
    cases m with
    | file => rw [ha] at h; cases h; rfl
    | dir => rw [ha] at h; cases h
    | symlink u =>
      rw [ha] at h
      by_cases hd : pyIsDir fs a = true
      · simp [hd] at h
      · simp [hd] at h
        exact h.symm

/-- `mkdirList` keeps every existing entry. -/
theorem mkdirList_preserves (l : List Path) :
    ∀ (fs : FS) (ev0 : List Event) (fs' : FS) (ev' : List Event) (q : Path) (n : Node),
      mkdirList fs ev0 l = Except.ok (fs', ev') → lookup fs q = some n →
      lookup fs' q = some n := by
  induction l with
  | nil =>
    intro fs ev0 fs' ev' q n h hl
    cases h
    exact hl
  | cons a rest ih =>
    intro fs ev0 fs' ev' q n h hl
    unfold mkdirList at h
    cases hone : mkdirOne fs a with
    | error e => rw [hone] at h; cases h
    | ok r =>
      rw [hone] at h
      exact ih r.1 (ev0 ++ r.2) fs' ev' q n h (mkdirOne_preserves fs r.1 r.2 a q n hone hl)

/-- `mkdirList` changes nothing at a path it was not asked to create. -/
theorem mkdirList_outside (l : List Path) :
    ∀ (fs : FS) (ev0 : List Event) (fs' : FS) (ev' : List Event) (q : Path),
      mkdirList fs ev0 l = Except.ok (fs', ev') → (∀ a ∈ l, ¬(q = a)) →
      lookup fs' q = lookup fs q := by
  induction l with
  | nil =>
    intro fs ev0 fs' ev' q h _
    cases h
    rfl
  | cons a rest ih =>
    intro fs ev0 fs' ev' q h hq
    unfold mkdirList at h
    cases hone : mkdirOne fs a with
    | error e => rw [hone] at h; cases h
    | ok r =>
      rw [hone] at h
      have h1 := ih r.1 (ev0 ++ r.2) fs' ev' q h (fun b hb => hq b (List.mem_cons_of_mem a hb))
      rw [h1]
      exact mkdirOne_outside fs r.1 r.2 a q hone (hq a (List.mem_cons_self a rest))

/-- `mkdirList` can only fail with a `mkdirConflict`. -/
theorem mkdirList_err (l : List Path) :
    ∀ (fs : FS) (ev0 : List Event) (e : Err),
      mkdirList fs ev0 l = Except.error e → ∃ q, e = Err.mkdirConflict q := by
  induction l with
  | nil => intro fs ev0 e h; cases h
  | cons a rest ih =>
    intro fs ev0 e h
    unfold mkdirList at h
    cases hone : mkdirOne fs a with
    | error e2 =>
      rw [hone] at h
      cases h
      exact ⟨a, mkdirOne_err fs a e hone⟩
    | ok r =>
      rw [hone] at h
      exact ih r.1 (ev0 ++ r.2) e h

/-- Every ancestor in the `mkdir` chain is at most as long as the path. -/
theorem ancestorsAsc_length (p a : Path) (h : a ∈ ancestorsAsc p) :
    a.length ≤ p.length := by
  simp only [ancestorsAsc, List.mem_map, List.mem_range] at h
  obtain ⟨i, _, rfl⟩ := h
  simp [List.length_take]

/-- `mkdirParents` keeps every existing entry. -/
theorem mkdirParents_preserves (fs : FS) (p : Path) (fs' : FS) (ev' : List Event)
    (q : Path) (n : Node) (h : mkdirParents fs p = Except.ok (fs', ev'))
    (hl : lookup fs q = some n) : lookup fs' q = some n :=
  mkdirList_preserves (ancestorsAsc p) fs [] fs' ev' q n h hl

/-- `mkdirParents` can only fail with a `mkdirConflict`. -/
theorem mkdirParents_err (fs : FS) (p : Path) (e : Err)
    (h : mkdirParents fs p = Except.error e) : ∃ q, e = Err.mkdirConflict q :=
  mkdirList_err (ancestorsAsc p) fs [] e h

/-- Making the parents of `t` leaves `t` itself untouched. -/
theorem mkdirParents_parent_keeps (fs : FS) (t : Path) (fs1 : FS) (ev1 : List Event)
    (hne : t ≠ []) (h : mkdirParents fs t.dropLast = Except.ok (fs1, ev1)) :
    lookup fs1 t = lookup fs t := by
  refine mkdirList_outside (ancestorsAsc t.dropLast) fs [] fs1 ev1 t h ?_
  intro a ha hq
  have h1 := ancestorsAsc_length t.dropLast a ha
  rw [← hq] at h1
  rw [List.length_dropLast] at h1
  have h2 : 0 < t.length := List.length_pos.mpr hne
  omega

/-- Creating a symlink right after clearing the same target succeeds. -/
theorem symlink_to_clear (fs : FS) (t s : Path) :
    symlink_to (clearTarget fs t).1 t s =
      Except.ok (insertP (clearTarget fs t).1 t (Node.symlink s), [Event.symlinked t s]) := by
  simp [symlink_to, lookup_clearTarget_self]

/-- Clearing cannot create an entry at an absent path. -/
theorem lookup_clearTarget_none (fs : FS) (t s : Path) (h : lookup fs s = none) :
    lookup (clearTarget fs t).1 s = none := by
  rw [clearTarget_eq]
  cases hl : lookup fs t with
  | none => exact h
  | some n =>
    cases n with
    | dir =>
      simp only [lookup_eraseTree]
      by_cases hp : pfx t s = true
      · simp [hp]
      · simp [hp, h]
    | file =>
      simp only [lookup_eraseP]
      by_cases hp : s = t
      · simp [hp]
      · simp [hp, h]
    | symlink u =>
      simp only [lookup_eraseP]
      by_cases hp : s = t
      · simp [hp]
      · simp [hp, h]

/-- A successful unlink leaves the path vacant. -/
theorem unlinkFile_vacates (fs : FS) (p : Path) (r : FS × List Event)
    (h : unlinkFile fs p = Except.ok r) : lookup r.1 p = none := by
  unfold unlinkFile at h
  cases hl : lookup fs p with
  | none =>
    rw [hl] at h
    cases h
    simp [lookup_eraseP]
  | some n =>
    cases n with
    | dir => rw [hl] at h; cases h
    | file => rw [hl] at h; cases h; simp [lookup_eraseP]
    | symlink u => rw [hl] at h; cases h; simp [lookup_eraseP]

/-- The full behaviour of one `setup_symlinks` loop iteration when the
    source directory already exists (setup_symlinks.py lines 46-74):
    parents are made, the target is cleared, the symlink is created. -/
theorem symlinkStepFolder_spec (fs fs1 : FS) (ev1 : List Event) (t s : Path)
    (hmk : mkdirParents fs t.dropLast = Except.ok (fs1, ev1))
    (hsrc : lookup fs s = some Node.dir) :
    symlinkStepFolder fs t s =
      Except.ok (insertP (clearTarget fs1 t).1 t (Node.symlink s),
        ev1 ++ (clearTarget fs1 t).2 ++ [Event.symlinked t s]) := by
  have hl1 : lookup fs1 s = some Node.dir :=
    mkdirParents_preserves fs t.dropLast fs1 ev1 s Node.dir hmk hsrc
  have hex : pexists fs1 s = true := by simp [pexists, resolveNode, resolveN, hl1]
  unfold symlinkStepFolder
  rw [hmk]
  simp only [hex, if_true]
  rw [symlink_to_clear]
  simp

/-- The full behaviour of one `_setup_directory_symlinks` iteration when
    the source is a real directory not at or below the target
    (setup_symlinks.py lines 78-95). -/
theorem dirSymlinkStep_spec (fs : FS) (t s : Path)
    (hsrc : lookup fs s = some Node.dir) (hpf : pfx t s = false) :
    dirSymlinkStep fs t s =
      Except.ok (insertP (clearTarget fs t).1 t (Node.symlink s),
        (clearTarget fs t).2 ++ [Event.symlinked t s]) := by
  have hcl : lookup (clearTarget fs t).1 s = some Node.dir := by
    rw [lookup_clearTarget_other fs t s hpf]
    exact hsrc
  have hd : pyIsDir (clearTarget fs t).1 s = true := by
    simp [pyIsDir, resolveNode, resolveN, hcl]
  unfold dirSymlinkStep
  simp only [hd, if_true]
  rw [symlink_to_clear]

/-- One `_setup_directory_symlinks` iteration with an absent source:
    the target is still cleared, then a warning is printed. -/
theorem dirSymlinkStep_missing (fs : FS) (t s : Path) (hsrc : lookup fs s = none) :
    dirSymlinkStep fs t s =
      Except.ok ((clearTarget fs t).1, (clearTarget fs t).2 ++ [Event.warnedMissing s]) := by
  have hcl : lookup (clearTarget fs t).1 s = none := lookup_clearTarget_none fs t s hsrc
  have hd : pyIsDir (clearTarget fs t).1 s = false := by
    simp [pyIsDir, resolveNode, resolveN, hcl]
  unfold dirSymlinkStep
  simp only [hd, Bool.false_eq_true, if_false]

/-- `symlinkStepFolder` never raises `FileExistsError` at the target. -/
theorem symlinkStepFolder_no_occ (fs : FS) (t s : Path) :
    isOccupiedErr (symlinkStepFolder fs t s) = false := by
  unfold symlinkStepFolder
  cases hmk : mkdirParents fs t.dropLast with
  | error e =>
    obtain ⟨q, rfl⟩ := mkdirParents_err fs t.dropLast e hmk
    rfl
  | ok r =>
    by_cases hex : pexists r.1 s = true
    · simp only [hex, if_true]
      rw [symlink_to_clear]
      rfl
    · simp only [hex, Bool.false_eq_true, if_false]
      cases hmk2 : mkdirParents r.1 s with
      | error e =>
        obtain ⟨q, rfl⟩ := mkdirParents_err r.1 s e hmk2
        rfl
      | ok r2 =>
        obtain ⟨fs2, ev2⟩ := r2
        show isOccupiedErr
          (match symlink_to (clearTarget fs2 t).1 t s with
           | Except.error e => Except.error e
           | Except.ok (fs4, ev4) =>
             Except.ok (fs4, r.2 ++ ev2 ++ (clearTarget fs2 t).2 ++ ev4)) = false
        rw [symlink_to_clear]
        rfl

/-- `dirSymlinkStep` never raises `FileExistsError` at the target. -/
theorem dirSymlinkStep_no_occ (fs : FS) (t s : Path) :
    isOccupiedErr (dirSymlinkStep fs t s) = false := by
  unfold dirSymlinkStep
  by_cases hd : pyIsDir (clearTarget fs t).1 s = true
  · simp only [hd, if_true]
    rw [symlink_to_clear]
    rfl
  · simp only [hd, Bool.false_eq_true, if_false]
    rfl

/-- `settingsWorkflowStep` never raises `FileExistsError` at the target. -/
theorem settingsWorkflowStep_no_occ (fs : FS) (t s : Path) :
    isOccupiedErr (settingsWorkflowStep fs t s) = false := by
  unfold settingsWorkflowStep
  by_cases hd : pyIsDir fs s = true
  · simp only [hd, if_true]
    rw [symlink_to_clear]
    rfl
  · simp only [hd, Bool.false_eq_true, if_false]
    rfl

/-- `settingsFileStep` never raises `FileExistsError` at the target. -/
theorem settingsFileStep_no_occ (fs : FS) (t s : Path) :
    isOccupiedErr (settingsFileStep fs t s) = false := by
  unfold settingsFileStep
  by_cases hf : pyIsFile fs s = true
  · simp only [hf, if_true]
    by_cases hocc : (pexists fs t || pyIsSymlink fs t) = true
    · simp only [hocc, if_true]
      cases hu : unlinkFile fs t with
      | error e =>
        unfold unlinkFile at hu
        cases hl : lookup fs t with
        | none => rw [hl] at hu; cases hu
        | some n =>
          cases n with
          | dir => rw [hl] at hu; cases hu; rfl
          | file => rw [hl] at hu; cases hu
          | symlink u => rw [hl] at hu; cases hu
      | ok r =>
        have hv : lookup r.1 t = none := unlinkFile_vacates fs t r hu
        simp [symlink_to, hv, isOccupiedErr]
    · simp only [hocc, Bool.false_eq_true, if_false]
      have hb : (pexists fs t || pyIsSymlink fs t) = false := Bool.eq_false_iff.mpr hocc
      have h2 : (lookup fs t).isSome = false := by
        rw [← occupied_iff]
        exact hb
      have hv : lookup fs t = none := by
        cases hl : lookup fs t with
        | none => rfl
        | some n => rw [hl] at h2; simp at h2
      simp [symlink_to, hv, isOccupiedErr]
  · simp only [hf, Bool.false_eq_true, if_false]
    rfl

/-- `isOccupiedErr` on a raised exception does not depend on the result type. -/
theorem isOccupiedErr_congr {A B : Type} (e : Err)
    (h : isOccupiedErr (Except.error e : Except Err A) = false) :
    isOccupiedErr (Except.error e : Except Err B) = false := by
  cases e <;> simp_all [isOccupiedErr]

/-- The prompt-collection phase can only fail by running out of stdin. -/
theorem collectPaths_err (home : String) (l : List (String × Option String)) :
    ∀ (stdin : List String) (e : Err),
      collectPaths home l stdin = Except.error e → e = Err.endOfInput := by
  induction l with
  | nil => intro stdin e h; cases h
  | cons a rest ih =>
    intro stdin e h
    obtain ⟨folder, d⟩ := a
    unfold collectPaths at h
    cases stdin with
    | nil => cases h; rfl
    | cons r stdin1 =>
      dsimp only at h
      cases hc : collectPaths home rest stdin1 with
      | error e2 =>
        rw [hc] at h
        cases h
        exact ih stdin1 e hc
      | ok pr =>
        rw [hc] at h
        cases hg : get_user_path home folder d r with
        | some sp => rw [hg] at h; cases h
        | none => rw [hg] at h; cases h

/-- The symlink-creation loop never raises `FileExistsError`. -/
theorem runSymlinkLoop_no_occ (cp : Path) (l : List (String × String)) :
    ∀ fs, isOccupiedErr (runSymlinkLoop cp fs l) = false := by
  induction l with
  | nil => intro fs; rfl
  | cons a rest ih =>
    intro fs
    obtain ⟨folder, sp⟩ := a
    unfold runSymlinkLoop
    cases hst : symlinkStepFolder fs (targetFor cp folder) (parsePath sp) with
    | error e =>
      have h1 := symlinkStepFolder_no_occ fs (targetFor cp folder) (parsePath sp)
      rw [hst] at h1
      exact h1
    | ok r =>
      obtain ⟨fs1, ev1⟩ := r
      dsimp only
      cases hr : runSymlinkLoop cp fs1 rest with
      | error e =>
        have h1 := ih fs1
        rw [hr] at h1
        exact h1
      | ok r2 =>
        obtain ⟨fs2, ev2⟩ := r2
        rfl

/-- The directory-symlink loop never raises `FileExistsError`. -/
theorem setup_directory_symlinks_no_occ (cp pr : Path) (l : List String) :
    ∀ fs, isOccupiedErr (setup_directory_symlinks cp pr fs l) = false := by
  induction l with
  | nil => intro fs; rfl
  | cons d rest ih =>
    intro fs
    unfold setup_directory_symlinks
    cases hst : dirSymlinkStep fs (cp ++ [d]) (pr ++ [d]) with
    | error e =>
      have h1 := dirSymlinkStep_no_occ fs (cp ++ [d]) (pr ++ [d])
      rw [hst] at h1
      exact h1
    | ok r =>
      obtain ⟨fs1, ev1⟩ := r
      dsimp only
      cases hr : setup_directory_symlinks cp pr fs1 rest with
      | error e =>
        have h1 := ih fs1
        rw [hr] at h1
        exact h1
      | ok r2 =>
        obtain ⟨fs2, ev2⟩ := r2
        rfl

/-- The settings-files loop never raises `FileExistsError`. -/
theorem settingsFilesLoop_no_occ (udT udS : Path) (l : List Seg) :
    ∀ fs, isOccupiedErr (settingsFilesLoop udT udS fs l) = false := by
  induction l with
  | nil => intro fs; rfl
  | cons f rest ih =>
    intro fs
    unfold settingsFilesLoop
    cases hst : settingsFileStep fs (udT ++ [f]) (udS ++ [f]) with
    | error e =>
      have h1 := settingsFileStep_no_occ fs (udT ++ [f]) (udS ++ [f])
      rw [hst] at h1
      exact h1
    | ok r =>
      obtain ⟨fs1, ev1⟩ := r
      dsimp only
      cases hr : settingsFilesLoop udT udS fs1 rest with
      | error e =>
        have h1 := ih fs1
        rw [hr] at h1
        exact h1
      | ok r2 =>
        obtain ⟨fs2, ev2⟩ := r2
        rfl

/-- `setup_symlinks` as a whole never raises `FileExistsError`. -/
theorem setup_symlinks_no_occ (fs : FS) (home cps : String)
    (paths : List (String × Option String)) (stdin : List String) :
    isOccupiedErr (setup_symlinks fs home cps paths stdin) = false := by
  unfold setup_symlinks
  by_cases hc : cps = ""
  · simp only [hc, if_pos rfl]
    rfl
  · rw [if_neg hc]
    cases hcol : collectPaths home paths stdin with
    | error e =>
      have := collectPaths_err home paths stdin e hcol
      subst this
      rfl
    | ok pr =>
      obtain ⟨pairs, stdin1⟩ := pr
      dsimp only
      cases hr : runSymlinkLoop (parsePath (expanduser home cps)) fs pairs with
      | error e =>
        have h1 := runSymlinkLoop_no_occ (parsePath (expanduser home cps)) pairs fs
        rw [hr] at h1
        dsimp only
        exact isOccupiedErr_congr e h1
      | ok r2 =>
        obtain ⟨fs1, ev⟩ := r2
        rfl

/-- `_setup_settings_symlinks` as a whole never raises `FileExistsError`. -/
theorem setup_settings_symlinks_no_occ (fs : FS) (cp pr : Path) :
    isOccupiedErr (setup_settings_symlinks fs cp pr) = false := by
  unfold setup_settings_symlinks
  dsimp only
  cases hmk : mkdirParents fs (cp ++ ["user", "default"]) with
  | error e =>
    obtain ⟨q, rfl⟩ := mkdirParents_err fs (cp ++ ["user", "default"]) e hmk
    rfl
  | ok r =>
    obtain ⟨fs1, ev1⟩ := r
    dsimp only
    cases hw : settingsWorkflowStep fs1 (cp ++ ["user", "default"] ++ ["workflows"])
        (pr ++ ["user", "default"] ++ ["workflows"]) with
    | error e =>
      have h1 := settingsWorkflowStep_no_occ fs1 (cp ++ ["user", "default"] ++ ["workflows"])
        (pr ++ ["user", "default"] ++ ["workflows"])
      rw [hw] at h1
      exact h1
    | ok r2 =>
      obtain ⟨fs2, ev2⟩ := r2
      dsimp only
      cases hf : settingsFilesLoop (cp ++ ["user", "default"]) (pr ++ ["user", "default"]) fs2
          ["comfy.settings.json", "jnodes.settings.json"] with
      | error e =>
        have h1 := settingsFilesLoop_no_occ (cp ++ ["user", "default"]) (pr ++ ["user", "default"])
          ["comfy.settings.json", "jnodes.settings.json"] fs2
        rw [hf] at h1
        exact h1
      | ok r3 =>
        obtain ⟨fs3, ev3⟩ := r3
        rfl

/-- `print_time_diff` never overwrites an already-set `start_time`,
    whatever sequence of further calls is made. -/
theorem runTimer_start_preserved (calls : List (Nat × String × Bool)) :
    ∀ (st : TimerState) (s : Nat), st.start_time = some s →
      (runTimer st calls).start_time = some s := by
  induction calls with
  | nil => intro st s h; exact h
  | cons c rest ih =>
    intro st s h
    obtain ⟨now, name, fin⟩ := c
    unfold runTimer
    refine ih (print_time_diff st now name fin).1 s ?_
    unfold print_time_diff
    rw [h]

/-! ### Claim theorems -/

/-- C5: on every path through every symlink-creating operation of
    setup_symlinks.py (`setup_symlinks`, `_setup_directory_symlinks`,
    `_setup_settings_symlinks`), the target path is vacant at the moment
    a symlink is created.  In the embedding, `symlink_to` raises
    `Err.targetOccupied` whenever anything occupies the target at
    creation time, so the operations never raising that error is exactly
    the claimed invariant. -/
theorem c5_target_vacant_before_symlink_creation :
    ∀ (fs : FS) (home cps : String) (paths : List (String × Option String))
      (stdin : List String) (cp pr : Path) (dirs : List String),
      isOccupiedErr (setup_symlinks fs home cps paths stdin) = false ∧
      isOccupiedErr (setup_directory_symlinks cp pr fs dirs) = false ∧
      isOccupiedErr (setup_settings_symlinks fs cp pr) = false := by
  intro fs home cps paths stdin cp pr dirs
  exact ⟨setup_symlinks_no_occ fs home cps paths stdin,
    setup_directory_symlinks_no_occ cp pr dirs fs,
    setup_settings_symlinks_no_occ fs cp pr⟩

/-- C8: `get_user_confirmation` returns `True` for every message when
    `skip_prompt` is set, consuming no stdin; otherwise it returns
    `False` exactly when the lowered, stripped response is `"n"`, and
    `True` for every other response, including `"no"` and the empty
    string. -/
theorem c8_get_user_confirmation_spec :
    ∀ (msg : String) (stdin rest : List String) (r : String),
      get_user_confirmation msg true stdin = Except.ok (true, stdin) ∧
      get_user_confirmation msg false (r :: rest) =
        Except.ok (!(pyStrip (pyLower r) = "n" : Bool), rest) ∧
      (get_user_confirmation msg false (r :: rest) = Except.ok (false, rest) ↔
        pyStrip (pyLower r) = "n") ∧
      get_user_confirmation msg false ("no" :: rest) = Except.ok (true, rest) ∧
      get_user_confirmation msg false ("" :: rest) = Except.ok (true, rest) := by
  intro msg stdin rest r
  refine ⟨rfl, rfl, ?_, rfl, rfl⟩
  constructor
  · intro h
    by_cases hn : pyStrip (pyLower r) = "n"
    · exact hn
    · simp [get_user_confirmation, hn] at h
  · intro h
    simp [get_user_confirmation, h]

/-- C9: `get_user_path` never returns `None` when a non-empty default
    is supplied: it returns the tilde-expanded stripped response when
    that is non-empty and otherwise the tilde-expanded default; it
    returns `None` exactly when there is no (truthy) default and the
    stripped response is empty. -/
theorem c9_get_user_path_spec :
    ∀ (home folder : String) (d : Option String) (r : String),
      (pyTruthyS d = true →
        get_user_path home folder d r =
          some (if !(pyStrip r = "" : Bool) then expanduser home (pyStrip r)
                else expanduser home (d.getD ""))) ∧
      (get_user_path home folder d r = none ↔
        (pyTruthyS d = false ∧ pyStrip r = "")) := by
  intro home folder d r
  constructor
  · intro ht
    unfold get_user_path
    rw [ht]
    by_cases hr : (pyStrip r = "")
    · simp [hr]
    · simp [hr]
  · constructor
    · intro h
      unfold get_user_path at h
      by_cases ht : pyTruthyS d = true
      · rw [ht] at h
        by_cases hr : (pyStrip r = "")
        · simp [hr] at h
        · simp [hr] at h
      · rw [Bool.eq_false_iff.mpr ht] at h
        by_cases hr : (pyStrip r = "")
        · exact ⟨Bool.eq_false_iff.mpr ht, hr⟩
        · simp [hr] at h
    · intro h
      unfold get_user_path
      rw [h.1, h.2]
      simp

/-- C7: the module state of comfy_config.py is the timestamp pair, and
    `print_time_diff` maintains it so that `last_step_time` is set to
    the current time on every call while `start_time` is set on the
    first call and never changed by any later sequence of calls. -/
theorem c7_print_time_diff_state :
    ∀ (st : TimerState) (now s : Nat) (name : String) (fin : Bool)
      (calls : List (Nat × String × Bool)),
      (print_time_diff st now name fin).1.last_step_time = some now ∧
      (st.start_time = none → (print_time_diff st now name fin).1.start_time = some now) ∧
      (st.start_time = some s → (print_time_diff st now name fin).1.start_time = some s) ∧
      (st.start_time = some s → (runTimer st calls).start_time = some s) := by
  intro st now s name fin calls
  refine ⟨rfl, ?_, ?_, runTimer_start_preserved calls st s⟩
  · intro h
    unfold print_time_diff
    rw [h]
  · intro h
    unfold print_time_diff
    rw [h]

/-- Closed instance of `c7_print_time_diff_state` with its hypotheses
    discharged at concrete timestamps. -/
theorem c7_witness :
    (print_time_diff (TimerState.mk (some 5) (some 7)) 9 "step" false).1.start_time = some 5 ∧
    (print_time_diff (TimerState.mk none none) 9 "step" false).1.start_time = some 9 ∧
    (runTimer (TimerState.mk (some 5) (some 7))
      [(11, "a", false), (13, "b", true)]).start_time = some 5 := by
  refine ⟨?_, ?_, ?_⟩
  · exact (c7_print_time_diff_state (TimerState.mk (some 5) (some 7)) 9 5 "step" false
      [(11, "a", false), (13, "b", true)]).2.2.1 rfl
  · exact (c7_print_time_diff_state (TimerState.mk none none) 9 5 "step" false []).2.1 rfl
  · exact (c7_print_time_diff_state (TimerState.mk (some 5) (some 7)) 9 5 "step" false
      [(11, "a", false), (13, "b", true)]).2.2.2 rfl

/-- C10: with `skip_prompt` set and a `config_source` that is either
    falsy or not an existing file, `setup_manager_config` returns with
    the filesystem unchanged: the target directory is not created and no
    existing `config.ini` is removed or overwritten. -/
theorem c10_setup_manager_config_skip_no_mutation :
    ∀ (fs : FS) (home : String) (cp : Path) (c : Option String) (stdin : List String),
      (pyTruthyS c = false →
        setup_manager_config fs home cp c true stdin =
          Except.ok (fs, stdin,
            [Event.info "No ComfyUI-Manager config.ini specified, skipping configuration"])) ∧
      (∀ s, c = some s → pyIsFile fs (parsePath (expanduser home s)) = false →
        ∃ ev, setup_manager_config fs home cp c true stdin = Except.ok (fs, stdin, ev)) := by
  intro fs home cp c stdin
  constructor
  · intro ht
    unfold setup_manager_config
    simp [ht]
  · intro s hc hf
    subst hc
    unfold setup_manager_config
    by_cases ht : pyTruthyS (some s) = true
    · refine ⟨[Event.info "ComfyUI-Manager config.ini not found, skipping configuration"], ?_⟩
      simp [ht, hf]
    · refine ⟨[Event.info "No ComfyUI-Manager config.ini specified, skipping configuration"], ?_⟩
      simp [Bool.eq_false_iff.mpr ht]

/-- Closed instance of `c9_get_user_path_spec` with its hypothesis
    discharged at a concrete prompt. -/
theorem c9_witness : get_user_path "/h" "models" (some "~/m") "  " = some "/h/m" :=
  ((c9_get_user_path_spec "/h" "models" (some "~/m") "  ").1 (by decide)).trans (by decide)

/-- Closed instance of `c10_setup_manager_config_skip_no_mutation` with
    its hypotheses discharged at concrete inputs. -/
theorem c10_witness :
    setup_manager_config [] "/h" ["c"] none true [] =
      Except.ok (([] : FS), ([] : List String),
        [Event.info "No ComfyUI-Manager config.ini specified, skipping configuration"]) ∧
    (∃ ev, setup_manager_config [] "/h" ["c"] (some "cfg") true [] =
      Except.ok (([] : FS), ([] : List String), ev)) := by
  constructor
  · exact (c10_setup_manager_config_skip_no_mutation [] "/h" ["c"] none []).1 (by decide)
  · exact (c10_setup_manager_config_skip_no_mutation [] "/h" ["c"] (some "cfg") []).2
      "cfg" rfl (by decide)

/-- C1 (amended): in `setup_symlinks`, once the target's parents are
    made and provided the source directory exists, whatever occupies the
    target is removed (a real directory by recursive deletion, a file or
    symlink by unlink) and then a symlink to the source is created; in
    `_setup_directory_symlinks` the same holds provided additionally the
    target is not the source or an ancestor of it. -/
theorem c1_remove_then_create :
    ∀ (fs fs1 : FS) (ev1 : List Event) (t s : Path),
      (t ≠ [] → mkdirParents fs t.dropLast = Except.ok (fs1, ev1) →
        lookup fs s = some Node.dir →
        symlinkStepFolder fs t s =
          Except.ok (insertP (clearTarget fs1 t).1 t (Node.symlink s),
            ev1 ++ (clearTarget fs1 t).2 ++ [Event.symlinked t s]) ∧
        lookup (insertP (clearTarget fs1 t).1 t (Node.symlink s)) t =
          some (Node.symlink s) ∧
        (clearTarget fs1 t).2 =
          (match lookup fs t with
           | none => []
           | some Node.dir => [Event.removedTree t]
           | some _ => [Event.removedFile t])) ∧
      (lookup fs s = some Node.dir → pfx t s = false →
        dirSymlinkStep fs t s =
          Except.ok (insertP (clearTarget fs t).1 t (Node.symlink s),
            (clearTarget fs t).2 ++ [Event.symlinked t s]) ∧
        lookup (insertP (clearTarget fs t).1 t (Node.symlink s)) t =
          some (Node.symlink s) ∧
        (clearTarget fs t).2 =
          (match lookup fs t with
           | none => []
           | some Node.dir => [Event.removedTree t]
           | some _ => [Event.removedFile t])) := by
  intro fs fs1 ev1 t s
  constructor
  · intro hne hmk hsrc
    have hkeep := mkdirParents_parent_keeps fs t fs1 ev1 hne hmk
    refine ⟨symlinkStepFolder_spec fs fs1 ev1 t s hmk hsrc, ?_, ?_⟩
    · simp [lookup_insertP]
    · rw [clearTarget_eq fs1 t, hkeep]
      cases hl : lookup fs t with
      | none => rfl
      | some n => cases n <;> rfl
  · intro hsrc hpf
    refine ⟨dirSymlinkStep_spec fs t s hsrc hpf, ?_, ?_⟩
    · simp [lookup_insertP]
    · rw [clearTarget_eq fs t]
      cases hl : lookup fs t with
      | none => rfl
      | some n => cases n <;> rfl

/-- C1 counterexample: when `comfy_path` equals the project root, an
    iteration of `_setup_directory_symlinks` has target equal to the
    existing source directory; the clearing step then deletes the source
    itself, the source check (which runs only after the removal) fails,
    and no symlink is created — refuting the claim as stated for that
    run. -/
theorem c1_counterexample :
    lookup [(["c", "models"], Node.dir)] ["c", "models"] = some Node.dir ∧
    dirSymlinkStep [(["c", "models"], Node.dir)] ["c", "models"] ["c", "models"] =
      Except.ok ([], [Event.removedTree ["c", "models"],
        Event.warnedMissing ["c", "models"]]) ∧
    lookup ([] : FS) ["c", "models"] ≠ some (Node.symlink ["c", "models"]) := by
  refine ⟨rfl, rfl, ?_⟩
  intro h
  cases h

/-- Closed instance of `c1_remove_then_create` with its hypotheses
    discharged at concrete filesystems. -/
theorem c1_witness :
    symlinkStepFolder [(["p", "models"], Node.dir), (["c", "models"], Node.file)]
        ["c", "models"] ["p", "models"] =
      Except.ok
        (insertP (clearTarget
            [(["c"], Node.dir), (["p", "models"], Node.dir), (["c", "models"], Node.file)]
            ["c", "models"]).1 ["c", "models"] (Node.symlink ["p", "models"]),
          [Event.madeDir ["c"]] ++
            (clearTarget
              [(["c"], Node.dir), (["p", "models"], Node.dir), (["c", "models"], Node.file)]
              ["c", "models"]).2 ++ [Event.symlinked ["c", "models"] ["p", "models"]]) ∧
    dirSymlinkStep [(["p", "models"], Node.dir), (["c", "models"], Node.symlink ["old"])]
        ["c", "models"] ["p", "models"] =
      Except.ok
        (insertP (clearTarget
            [(["p", "models"], Node.dir), (["c", "models"], Node.symlink ["old"])]
            ["c", "models"]).1 ["c", "models"] (Node.symlink ["p", "models"]),
          (clearTarget [(["p", "models"], Node.dir), (["c", "models"], Node.symlink ["old"])]
            ["c", "models"]).2 ++ [Event.symlinked ["c", "models"] ["p", "models"]]) := by
  constructor
  · exact ((c1_remove_then_create
      [(["p", "models"], Node.dir), (["c", "models"], Node.file)]
      [(["c"], Node.dir), (["p", "models"], Node.dir), (["c", "models"], Node.file)]
      [Event.madeDir ["c"]] ["c", "models"] ["p", "models"]).1
      (by decide) rfl rfl).1
  · exact ((c1_remove_then_create
      [(["p", "models"], Node.dir), (["c", "models"], Node.symlink ["old"])]
      [] [] ["c", "models"] ["p", "models"]).2 rfl (by decide)).1

/-- C2 (amended): when the source path does not exist,
    `_setup_directory_symlinks` prints a warning, creates no symlink and
    leaves the source untouched, but still removes whatever occupies the
    target; the settings routines warn and mutate nothing; and
    `setup_symlinks` instead creates the missing source directory and
    proceeds to create the symlink. -/
theorem c2_missing_source_behaviour :
    ∀ (fs fs1 fs2 : FS) (ev1 ev2 : List Event) (t s : Path),
      (lookup fs s = none →
        dirSymlinkStep fs t s =
          Except.ok ((clearTarget fs t).1,
            (clearTarget fs t).2 ++ [Event.warnedMissing s]) ∧
        lookup (clearTarget fs t).1 s = none ∧
        (∀ p q, Event.symlinked p q ∉ (clearTarget fs t).2 ++ [Event.warnedMissing s])) ∧
      (pyIsDir fs s = false →
        settingsWorkflowStep fs t s = Except.ok (fs, [Event.warnedMissing s])) ∧
      (pyIsFile fs s = false →
        settingsFileStep fs t s = Except.ok (fs, [Event.warnedMissing s])) ∧
      (pexists fs1 s = false →
        mkdirParents fs t.dropLast = Except.ok (fs1, ev1) →
        mkdirParents fs1 s = Except.ok (fs2, ev2) →
        symlinkStepFolder fs t s =
          Except.ok (insertP (clearTarget fs2 t).1 t (Node.symlink s),
            ev1 ++ ev2 ++ (clearTarget fs2 t).2 ++ [Event.symlinked t s])) := by
  intro fs fs1 fs2 ev1 ev2 t s
  refine ⟨?_, ?_, ?_, ?_⟩
  · intro hsrc
    refine ⟨dirSymlinkStep_missing fs t s hsrc, lookup_clearTarget_none fs t s hsrc, ?_⟩
    intro p q
    rw [clearTarget_eq fs t]
    cases hl : lookup fs t with
    | none => simp
    | some n => cases n <;> simp
  · intro hd
    unfold settingsWorkflowStep
    simp [hd]
  · intro hf
    unfold settingsFileStep
    simp [hf]
  · intro hex hmk1 hmk2
    unfold symlinkStepFolder
    rw [hmk1]
    simp only [hex, Bool.false_eq_true, if_false]
    rw [hmk2]
    dsimp only
    rw [symlink_to_clear]

/-- C2 counterexample: a `_setup_directory_symlinks` run whose source
    does not exist but whose target is an existing directory removes the
    target — a filesystem mutation — refuting the claim that no mutation
    occurs. -/
theorem c2_counterexample :
    lookup [(["c", "models"], Node.dir)] ["p", "models"] = none ∧
    dirSymlinkStep [(["c", "models"], Node.dir)] ["c", "models"] ["p", "models"] =
      Except.ok ([], [Event.removedTree ["c", "models"],
        Event.warnedMissing ["p", "models"]]) ∧
    ([] : FS) ≠ [(["c", "models"], Node.dir)] := by
  refine ⟨rfl, rfl, ?_⟩
  intro h
  cases h

/-- Closed instance of `c2_missing_source_behaviour` with its
    hypotheses discharged at concrete filesystems. -/
theorem c2_witness :
    dirSymlinkStep [(["c", "x"], Node.file)] ["c", "x"] ["p", "x"] =
      Except.ok ((clearTarget [(["c", "x"], Node.file)] ["c", "x"]).1,
        (clearTarget [(["c", "x"], Node.file)] ["c", "x"]).2 ++
          [Event.warnedMissing ["p", "x"]]) ∧
    settingsWorkflowStep [] ["t"] ["s"] = Except.ok ([], [Event.warnedMissing ["s"]]) ∧
    settingsFileStep [] ["t"] ["s"] = Except.ok ([], [Event.warnedMissing ["s"]]) ∧
    symlinkStepFolder [] ["c", "x"] ["p"] =
      Except.ok (insertP (clearTarget [(["p"], Node.dir), (["c"], Node.dir)] ["c", "x"]).1
          ["c", "x"] (Node.symlink ["p"]),
        [Event.madeDir ["c"]] ++ [Event.madeDir ["p"]] ++
          (clearTarget [(["p"], Node.dir), (["c"], Node.dir)] ["c", "x"]).2 ++
          [Event.symlinked ["c", "x"] ["p"]]) := by
  refine ⟨?_, ?_, ?_, ?_⟩
  · exact ((c2_missing_source_behaviour [(["c", "x"], Node.file)] [] [] [] []
      ["c", "x"] ["p", "x"]).1 rfl).1
  · exact (c2_missing_source_behaviour [] [] [] [] [] ["t"] ["s"]).2.1 rfl
  · exact (c2_missing_source_behaviour [] [] [] [] [] ["t"] ["s"]).2.2.1 rfl
  · exact (c2_missing_source_behaviour [] [(["c"], Node.dir)]
      [(["p"], Node.dir), (["c"], Node.dir)] [Event.madeDir ["c"]] [Event.madeDir ["p"]]
      ["c", "x"] ["p"]).2.2.2 (by decide) rfl rfl

/-- C3 (amended): each script exits 0 on successful completion;
    setup_symlinks.py exits 1 on an exception caught by its top-level
    handler; comfy_config.py's explicit exits only use 0 or 1;
    exceptions caught inside individual steps (such as a failed snapshot
    restore, reflected by the `restoreOk` parameter) leave the exit
    status 0. -/
theorem c3_exit_codes :
    ∀ (fs fs1 : FS) (home cps cp : String) (paths : List (String × Option String))
      (stdin stdin1 stdin2 : List String) (mc snap : Option String)
      (skip restoreOk : Bool) (ev1 ev2 : List Event)
      (r : FS × List String × List Event) (e : Err) (env : CCEnv) (n : Nat)
      (ev : List Event),
      (setup_symlinks fs home cps paths stdin = Except.ok r →
        setupSymlinksMain fs home cps paths stdin = ScriptOutcome.exited 0 r.2.2) ∧
      (setup_symlinks fs home cps paths stdin = Except.error e →
        setupSymlinksMain fs home cps paths stdin =
          ScriptOutcome.exited 1 [Event.printedErr e]) ∧
      (setup_manager_config fs home (parsePath cp) mc skip stdin =
          Except.ok (fs1, stdin1, ev1) →
        restore_snapshot fs1 home (parsePath cp) snap skip stdin1 restoreOk =
          Except.ok (stdin2, ev2) →
        managerMain fs home cp mc snap skip stdin restoreOk =
          ScriptOutcome.exited 0 (ev1 ++ ev2)) ∧
      (comfyConfigMain env fs = ScriptOutcome.exited n ev → n = 0 ∨ n = 1) := by
  intro fs fs1 home cps cp paths stdin stdin1 stdin2 mc snap skip restoreOk ev1 ev2 r e env n ev
  refine ⟨?_, ?_, ?_, ?_⟩
  · intro h
    obtain ⟨fsr, stdinr, evr⟩ := r
    unfold setupSymlinksMain
    rw [h]
  · intro h
    unfold setupSymlinksMain
    rw [h]
  · intro h1 h2
    unfold managerMain
    rw [h1]
    dsimp only
    rw [h2]
  · intro h
    unfold comfyConfigMain at h
    dsimp only at h
    cases hA : (if !env.comfyCliInstalled then
          install_comfy_cli (env.argv.contains "--skip-prompt") env.stdin env.pipOk
        else Except.ok (true, env.stdin, ([] : List Event))) with
    | error e1 => rw [hA] at h; cases h
    | ok rA =>
      rw [hA] at h
      obtain ⟨instOk, stdinA, evA⟩ := rA
      dsimp only at h
      cases instOk with
      | false =>
        simp only [Bool.not_false, if_true] at h
        injection h with h1 h2
        omega
      | true =>
        simp only [Bool.not_true, Bool.false_eq_true, if_false] at h
        cases hB : resolveWorkspace env fs (env.argv.contains "--skip-prompt") stdinA with
        | error e2 => rw [hB] at h; cases h
        | ok rB =>
          rw [hB] at h
          obtain ⟨wsOpt, stdinB, evB⟩ := rB
          dsimp only at h
          cases wsOpt with
          | none =>
            injection h with h1 h2
            omega
          | some ws =>
            dsimp only at h
            cases hC : symlinkSection env fs ws (env.argv.contains "--skip-prompt") stdinB with
            | error e3 => rw [hC] at h; cases h
            | ok rC =>
              rw [hC] at h
              obtain ⟨stdinC, evC⟩ := rC
              dsimp only at h
              cases hD : get_user_confirmation "Would you like to copy user settings?"
                  false stdinC with
              | error e4 => rw [hD] at h; cases h
              | ok rD =>
                rw [hD] at h
                obtain ⟨conf, stdinD⟩ := rD
                dsimp only at h
                cases hE : (if conf then
                      copy_user_settings env fs ws (env.argv.contains "--skip-prompt") stdinD
                    else Except.ok (fs, stdinD, ([] : List Event))) with
                | error e5 => rw [hE] at h; cases h
                | ok rE =>
                  rw [hE] at h
                  obtain ⟨fsE, stdinE, evE⟩ := rE
                  dsimp only at h
                  cases hF : handle_manager_setup env fsE ws
                      (env.argv.contains "--skip-prompt") stdinE with
                  | error e6 => rw [hF] at h; cases h
                  | ok rF =>
                    rw [hF] at h
                    obtain ⟨stdinF, evF⟩ := rF
                    dsimp only at h
                    injection h with h1 h2
                    omega

/-- C3 counterexample: a manager_utils.py run in which the snapshot
    restore subprocess fails.  The `CalledProcessError` is caught and
    logged (the `caughtProcessError` event), yet the script completes
    normally and the process exits 0, not 1 — refuting "status code 1 on
    any caught exception" as stated. -/
theorem c3_counterexample :
    managerMain [(["s"], Node.file)] "/h" "/c" none (some "s") true [] false =
      ScriptOutcome.exited 0
        [Event.info "No ComfyUI-Manager config.ini specified, skipping configuration",
         Event.ran ["comfy", "node", "restore-snapshot", "/s"] false true,
         Event.caughtProcessError ["comfy", "node", "restore-snapshot", "/s"]] ∧
    Event.caughtProcessError ["comfy", "node", "restore-snapshot", "/s"] ∈
      [Event.info "No ComfyUI-Manager config.ini specified, skipping configuration",
       Event.ran ["comfy", "node", "restore-snapshot", "/s"] false true,
       Event.caughtProcessError ["comfy", "node", "restore-snapshot", "/s"]] ∧
    (0 : Nat) ≠ 1 := by
  refine ⟨rfl, ?_, by decide⟩
  simp

/-- Closed instance of `c3_exit_codes` with its hypotheses discharged
    at concrete runs. -/
theorem c3_witness :
    setupSymlinksMain [] "/h" "/c" [] [] = ScriptOutcome.exited 0 [] ∧
    setupSymlinksMain [] "/h" "" [] [] =
      ScriptOutcome.exited 1
        [Event.printedErr (Err.badValue "ComfyUI workspace path not provided")] ∧
    managerMain [] "/h" "/c" none none true [] true =
      ScriptOutcome.exited 0
        ([Event.info "No ComfyUI-Manager config.ini specified, skipping configuration"] ++
         [Event.info "No snapshot specified, skipping restore"]) ∧
    ((1 : Nat) = 0 ∨ (1 : Nat) = 1) := by
  refine ⟨?_, ?_, ?_, ?_⟩
  · exact ((c3_exit_codes [] [] "/h" "/c" "/c" [] [] [] [] none none true true [] []
      ([], [], []) Err.endOfInput (CCEnv.mk [] [] "" none none none none none none none
        none none none true true 0 "" true true true true true true) 0 []).1 rfl)
  · exact ((c3_exit_codes [] [] "/h" "" "/c" [] [] [] [] none none true true [] []
      ([], [], []) (Err.badValue "ComfyUI workspace path not provided")
      (CCEnv.mk [] [] "" none none none none none none none
        none none none true true 0 "" true true true true true true) 0 []).2.1 rfl)
  · exact ((c3_exit_codes [] [] "/h" "/c" "/c" [] [] [] [] none none true true
      [Event.info "No ComfyUI-Manager config.ini specified, skipping configuration"]
      [Event.info "No snapshot specified, skipping restore"]
      ([], [], []) Err.endOfInput (CCEnv.mk [] [] "" none none none none none none none
        none none none true true 0 "" true true true true true true) 0 []).2.2.1 rfl rfl)
  · exact ((c3_exit_codes [] [] "/h" "/c" "/c" [] [] [] [] none none true true [] []
      ([], [], []) Err.endOfInput (CCEnv.mk ["--skip-prompt"] [] "/h" none none none none
        none none none none none none false false 0 "" true true true true true true)
      1 [Event.ran ["python", "-m", "pip", "install", "comfy-cli"] false false,
         Event.loggedFailure ["python", "-m", "pip", "install", "comfy-cli"],
         Event.info "Failed to install comfy-cli. Exiting."]).2.2.2 rfl)

/-- C4 (amended): only setup_symlinks.py catches broad exceptions at
    its top level, printing the message to the error stream and exiting
    1; manager_utils.py and comfy_config.py have no top-level handler,
    so an exception raised below `main` propagates uncaught. -/
theorem c4_top_level_error_handling :
    ∀ (fs : FS) (home cps cp : String) (paths : List (String × Option String))
      (stdin : List String) (e : Err) (mc snap : Option String)
      (skip restoreOk : Bool) (env : CCEnv),
      (setup_symlinks fs home cps paths stdin = Except.error e →
        setupSymlinksMain fs home cps paths stdin =
          ScriptOutcome.exited 1 [Event.printedErr e]) ∧
      (setup_manager_config fs home (parsePath cp) mc skip stdin = Except.error e →
        managerMain fs home cp mc snap skip stdin restoreOk =
          ScriptOutcome.uncaught e []) ∧
      (env.comfyCliInstalled = true →
        resolveWorkspace env fs (env.argv.contains "--skip-prompt") env.stdin =
          Except.error e →
        comfyConfigMain env fs = ScriptOutcome.uncaught e []) := by
  intro fs home cps cp paths stdin e mc snap skip restoreOk env
  refine ⟨?_, ?_, ?_⟩
  · intro h
    unfold setupSymlinksMain
    rw [h]
  · intro h
    unfold managerMain
    rw [h]
  · intro hcli hres
    unfold comfyConfigMain
    rw [hcli]
    simp only [Bool.not_true, Bool.false_eq_true, if_false]
    rw [hres]

/-- C4 counterexample: a comfy_config.py run (skip-prompt mode, no
    existing workspace) in which the `comfy ... install` subprocess
    fails.  The `CalledProcessError` is raised by a `check=True` call
    outside any `try` and `main` has no top-level handler, so the
    exception propagates uncaught instead of being caught, printed and
    turned into `sys.exit(1)` — refuting the claim for this script. -/
theorem c4_counterexample :
    comfyConfigMain (CCEnv.mk ["--skip-prompt"] [] "/h" none none none none none none none
        none none none true true 1 "" true false true false true true) [] =
      ScriptOutcome.uncaught
        (Err.processError ["comfy", "--workspace", "/h/ComfyUI", "install", "--skip-prompt"])
        [] := rfl

/-- Closed instance of `c4_top_level_error_handling` with its
    hypotheses discharged at concrete runs. -/
theorem c4_witness :
    setupSymlinksMain [] "/h" "" [] [] =
      ScriptOutcome.exited 1
        [Event.printedErr (Err.badValue "ComfyUI workspace path not provided")] ∧
    managerMain [(["cfg"], Node.file), (["c", "user"], Node.file)] "/h" "/c" (some "cfg")
        none true [] true =
      ScriptOutcome.uncaught (Err.mkdirConflict ["c", "user"]) [] ∧
    comfyConfigMain (CCEnv.mk ["--skip-prompt"] ["x"] "/h" none none none none none none
        none none none none true true 1 "" true false true false true true) [] =
      ScriptOutcome.uncaught
        (Err.processError ["comfy", "--workspace", "/h/ComfyUI", "install", "--skip-prompt"])
        [] := by
  refine ⟨?_, ?_, ?_⟩
  · exact (c4_top_level_error_handling [] "/h" "" "/c" [] []
      (Err.badValue "ComfyUI workspace path not provided") none none true true
      (CCEnv.mk [] [] "" none none none none none none none
        none none none true true 0 "" true true true true true true)).1 rfl
  · exact (c4_top_level_error_handling [(["cfg"], Node.file), (["c", "user"], Node.file)]
      "/h" "" "/c" [] [] (Err.mkdirConflict ["c", "user"]) (some "cfg") none true true
      (CCEnv.mk [] [] "" none none none none none none none
        none none none true true 0 "" true true true true true true)).2.1 rfl
  · exact (c4_top_level_error_handling [] "/h" "" "/c" [] []
      (Err.processError ["comfy", "--workspace", "/h/ComfyUI", "install", "--skip-prompt"])
      none none true true
      (CCEnv.mk ["--skip-prompt"] ["x"] "/h" none none none none none none
        none none none none true true 1 "" true false true false true true)).2.2 rfl rfl

/-- C6 (amended): subprocess failures the scripts check are detected
    and logged; a failed snapshot restore is caught and only that step
    is skipped (the manager script still exits 0); a failed comfy-cli
    installation is logged but aborts the main script with exit 1; the
    `comfy ... install` command of the fresh-install path runs with
    `check=True` outside any `try`, so its failure raises instead of
    being skipped. -/
theorem c6_subprocess_failure_handling :
    ∀ (fs fs1 : FS) (home cp : String) (sp : Path) (mc snap : Option String)
      (stdin stdin1 stdin2 : List String) (skip : Bool)
      (ev1 ev2 : List Event) (env : CCEnv),
      (runRestoreCmd sp stdin false =
        Except.ok (stdin,
          [Event.ran ["comfy", "node", "restore-snapshot", joinPath sp] false true,
           Event.caughtProcessError ["comfy", "node", "restore-snapshot", joinPath sp]])) ∧
      (setup_manager_config fs home (parsePath cp) mc skip stdin =
          Except.ok (fs1, stdin1, ev1) →
        restore_snapshot fs1 home (parsePath cp) snap skip stdin1 false =
          Except.ok (stdin2, ev2) →
        exitCode (managerMain fs home cp mc snap skip stdin false) = 0) ∧
      (install_comfy_cli true stdin false =
        Except.ok (false, stdin,
          [Event.ran ["python", "-m", "pip", "install", "comfy-cli"] false false,
           Event.loggedFailure ["python", "-m", "pip", "install", "comfy-cli"]])) ∧
      (env.argv.contains "--skip-prompt" = true → env.comfyCliInstalled = false →
        env.pipOk = false →
        comfyConfigMain env fs = ScriptOutcome.exited 1
          [Event.ran ["python", "-m", "pip", "install", "comfy-cli"] false false,
           Event.loggedFailure ["python", "-m", "pip", "install", "comfy-cli"],
           Event.info "Failed to install comfy-cli. Exiting."]) ∧
      (pyTruthyS env.envComfyPath = false →
        pexists fs (parsePath env.home ++ ["ComfyUI"]) = false →
        env.installOk = false →
        setup_default_workspace env fs true stdin =
          Except.error (Err.processError
            (["comfy", "--workspace", joinPath (parsePath env.home ++ ["ComfyUI"]), "install"]
              ++ (["--skip-prompt"] ++ gpuFlags env.envDefaultGpu)))) := by
  intro fs fs1 home cp sp mc snap stdin stdin1 stdin2 skip ev1 ev2 env
  refine ⟨rfl, ?_, rfl, ?_, ?_⟩
  · intro h1 h2
    unfold managerMain
    rw [h1]
    dsimp only
    rw [h2]
    rfl
  · intro h1 h2 h3
    unfold comfyConfigMain
    rw [h1, h2, h3]
    rfl
  · intro h1 h2 h3
    unfold setup_default_workspace
    rw [h1]
    dsimp only
    rw [h2, h3]
    rfl

/-- C6 counterexample: a comfy_config.py run whose pip-install
    subprocess fails.  The failure is detected and logged, but the whole
    script aborts with exit 1 instead of merely skipping the current
    step — refuting the claim as stated. -/
theorem c6_counterexample :
    comfyConfigMain (CCEnv.mk ["--skip-prompt"] [] "/h" none none none none none none none
        none none none false false 0 "" true true true true true true) [] =
      ScriptOutcome.exited 1
        [Event.ran ["python", "-m", "pip", "install", "comfy-cli"] false false,
         Event.loggedFailure ["python", "-m", "pip", "install", "comfy-cli"],
         Event.info "Failed to install comfy-cli. Exiting."] ∧
    Event.loggedFailure ["python", "-m", "pip", "install", "comfy-cli"] ∈
      [Event.ran ["python", "-m", "pip", "install", "comfy-cli"] false false,
       Event.loggedFailure ["python", "-m", "pip", "install", "comfy-cli"],
       Event.info "Failed to install comfy-cli. Exiting."] := by
  refine ⟨rfl, ?_⟩
  simp

/-- Closed instance of `c6_subprocess_failure_handling` with its
    hypotheses discharged at concrete runs. -/
theorem c6_witness :
    exitCode (managerMain [(["s"], Node.file)] "/h" "/c" none (some "s") true ["y"] false) = 0 ∧
    comfyConfigMain (CCEnv.mk ["--skip-prompt"] ["y"] "/h" none none none none none none
        none none none none false false 0 "" true true true true true true) [] =
      ScriptOutcome.exited 1
        [Event.ran ["python", "-m", "pip", "install", "comfy-cli"] false false,
         Event.loggedFailure ["python", "-m", "pip", "install", "comfy-cli"],
         Event.info "Failed to install comfy-cli. Exiting."] ∧
    setup_default_workspace (CCEnv.mk ["--skip-prompt"] [] "/h" none none none none none
        none none none none none true true 1 "" true false true false true true) [] true [] =
      Except.error (Err.processError
        (["comfy", "--workspace", "/h/ComfyUI", "install"] ++
          (["--skip-prompt"] ++ gpuFlags none))) := by
  refine ⟨?_, ?_, ?_⟩
  · exact (c6_subprocess_failure_handling [(["s"], Node.file)] [(["s"], Node.file)]
      "/h" "/c" ["s"] none (some "s") ["y"] ["y"] ["y"] true
      [Event.info "No ComfyUI-Manager config.ini specified, skipping configuration"]
      [Event.ran ["comfy", "node", "restore-snapshot", "/s"] false true,
       Event.caughtProcessError ["comfy", "node", "restore-snapshot", "/s"]]
      (CCEnv.mk [] [] "" none none none none none none none
        none none none true true 0 "" true true true true true true)).2.1 rfl rfl
  · exact (c6_subprocess_failure_handling [] [] "/h" "/c" [] none none ["y"] [] [] true [] []
      (CCEnv.mk ["--skip-prompt"] ["y"] "/h" none none none none none none
        none none none none false false 0 "" true true true true true true)).2.2.2.1
      rfl rfl rfl
  · exact (c6_subprocess_failure_handling [] [] "/h" "/c" [] none none [] [] [] true [] []
      (CCEnv.mk ["--skip-prompt"] [] "/h" none none none none none
        none none none none none true true 1 "" true false true false true true)).2.2.2.2
      rfl rfl rfl

end ComfyConfig
